import Mathlib

/-!
Verification of the deployment-orchestration core of the HugoHost blog
platform: the commit builder and repository provisioner of
`src/lib/github.ts`, the Cloudflare Pages hosting provisioner of
`src/lib/cloudflare.ts`, the persisted deployment state machine of
`src/lib/firebase/firestore.ts`, and the orchestration actions of
`src/app/dashboard/blog/[blogId]/actions.ts`.

The TypeScript functions are embedded shallowly: each asynchronous external
API (GitHub git-data, GitHub repos, Cloudflare Pages, the Firestore blog
store) becomes an explicit state value threaded through the embedded
function, a thrown exception becomes `Except.error`, and JavaScript
truthiness on optional strings becomes an explicit `truthy` test.  Object
ids handed out by the content-addressable GitHub store are natural numbers
allocated from a counter.
-/

namespace HugoHost

/-- JavaScript truthiness of an optional string field: `undefined`, `null`
and the empty string are falsy. -/
def truthy : Option String → Bool
  | none => false
  | some s => s ≠ ""

/-- `pat` is a prefix of `s` (over character lists, so that every string
operation of the embedding evaluates inside the kernel). -/
def listIsPrefix : List Char → List Char → Bool
  | [], _ => true
  | _ :: _, [] => false
  | p :: ps, c :: cs => p == c && listIsPrefix ps cs

/-- `pat` occurs somewhere in `s`. -/
def listContains (pat : List Char) : List Char → Bool
  | [] => pat.isEmpty
  | c :: cs => listIsPrefix pat (c :: cs) || listContains pat cs

/-- JavaScript `String.prototype.includes`. -/
def strIncludes (s pat : String) : Bool :=
  listContains pat.data s.data

/-- JavaScript `String.prototype.toLowerCase`. -/
def strToLower (s : String) : String :=
  ⟨s.data.map Char.toLower⟩

/-- JavaScript `String.prototype.startsWith`. -/
def strStartsWith (s pre : String) : Bool :=
  listIsPrefix pre.data s.data

/-- Drop the first `n` characters. -/
def strDrop (s : String) (n : Nat) : String :=
  ⟨s.data.drop n⟩

/-- Keep the first `n` characters. -/
def strTake (s : String) (n : Nat) : String :=
  ⟨s.data.take n⟩

def isJsSpace (c : Char) : Bool :=
  c == ' ' || c == '\t' || c == '\n' || c == '\r'

/-- JavaScript `String.prototype.trim` (restricted to the common whitespace
characters). -/
def strTrim (s : String) : String :=
  ⟨((s.data.dropWhile isJsSpace).reverse.dropWhile isJsSpace).reverse⟩

/-- The pieces of JavaScript `String.prototype.split` with a one-character
separator (`"".split(sep)` is `[""]`). -/
def splitOnChar (sep : Char) : List Char → List (List Char)
  | [] => [[]]
  | c :: cs =>
    let r := splitOnChar sep cs
    if c == sep then [] :: r
    else
      match r with
      | [] => [[c]]
      | x :: xs => (c :: x) :: xs

/-- JavaScript `url.split('/')`. -/
def splitSlash (s : String) : List String :=
  (splitOnChar '/' s.data).map (fun l => ⟨l⟩)

/-- Replace the first occurrence of `pat` (non-empty) by `rep`. -/
def replaceFirstAux (pat rep : List Char) : List Char → List Char
  | [] => []
  | c :: cs =>
    if listIsPrefix pat (c :: cs) then rep ++ (c :: cs).drop pat.length
    else c :: replaceFirstAux pat rep cs

/-- JavaScript `String.prototype.replace` with a plain-string pattern
replaces only the first occurrence. -/
def replaceFirst (s pat rep : String) : String :=
  ⟨replaceFirstAux pat.data rep.data s.data⟩

/-! ## GitHub git-data model (commit builder)

The content-addressable object store behind `octokit.git`: blobs, trees and
commits keyed by ids allocated from a counter, plus branch references.
Blob creation deduplicates by content (content-addressable storage); tree
and commit ids are allocated fresh. -/

/-- A logical file passed to the commit builder (`{ path, content }`). -/
structure ContentFile where
  path : String
  content : String
deriving Repr, DecidableEq

/-- A commit object: tree id, parent commit ids, message. -/
structure GitCommit where
  tree : Nat
  parents : List Nat
  message : String
deriving Repr, DecidableEq

/-- The state of one repository inside the GitHub git-data API: the object
stores and the branch references.  Trees are flat path-to-blob maps, which
suffices for the flat file lists the application commits. -/
structure GitState where
  nextId : Nat
  blobs : List (Nat × String)
  trees : List (Nat × List (String × Nat))
  commits : List (Nat × GitCommit)
  refs : List (String × Nat)
deriving Repr, DecidableEq

def emptyGit : GitState := ⟨0, [], [], [], []⟩

/-- An error surfaced by the GitHub API (`e.status`, `e.message`). -/
structure GhError where
  status : Option Nat
  message : String
deriving Repr, DecidableEq

/-- `octokit.git.createBlob`: content-addressable, identical content reuses
the stored object. -/
def createBlob (st : GitState) (content : String) : Nat × GitState :=
  match st.blobs.find? (fun b => b.2 == content) with
  | some b => (b.1, st)
  | none =>
    (st.nextId,
     { st with nextId := st.nextId + 1, blobs := (st.nextId, content) :: st.blobs })

/-- The blob-creation loop of `commitFilesToRepo`: one `(path, blobSha)`
entry per input file, in input order. -/
def createBlobs (st : GitState) : List ContentFile → List (String × Nat) × GitState
  | [] => ([], st)
  | f :: rest =>
    let (sha, st1) := createBlob st f.content
    let (entries, st2) := createBlobs st1 rest
    ((f.path, sha) :: entries, st2)

/-- Writing one tree entry over a base tree: an existing path is replaced,
a new path is appended. -/
def upsertEntry (base : List (String × Nat)) (e : String × Nat) : List (String × Nat) :=
  if base.any (fun x => x.1 == e.1) then
    base.map (fun x => if x.1 == e.1 then (x.1, e.2) else x)
  else base ++ [e]

/-- Entries of the tree produced from a base tree plus new entries: paths not
mentioned by the new entries are carried forward, later duplicates win. -/
def applyTreeEntries (base : List (String × Nat)) (entries : List (String × Nat)) :
    List (String × Nat) :=
  entries.foldl upsertEntry base

/-- `octokit.git.createTree` with an optional `base_tree`. -/
def createTree (st : GitState) (entries : List (String × Nat)) (base : Option Nat) :
    Nat × GitState :=
  let baseEntries :=
    match base with
    | some b => (st.trees.lookup b).getD []
    | none => []
  (st.nextId,
   { st with
      nextId := st.nextId + 1,
      trees := (st.nextId, applyTreeEntries baseEntries entries) :: st.trees })

/-- `octokit.git.createCommit`. -/
def createCommit (st : GitState) (message : String) (tree : Nat) (parents : List Nat) :
    Nat × GitState :=
  (st.nextId,
   { st with
      nextId := st.nextId + 1,
      commits := (st.nextId, ⟨tree, parents, message⟩) :: st.commits })

/-- Reachability along parent edges, with fuel: commit ids are allocated in
increasing order and a commit only references earlier ids, so `nextId`
bounds the chain length. -/
def isAncestorFuel (commits : List (Nat × GitCommit)) : Nat → Nat → Nat → Bool
  | 0, _, _ => false
  | fuel + 1, a, b =>
    a == b ||
      match commits.lookup b with
      | some c => c.parents.any (fun p => isAncestorFuel commits fuel a p)
      | none => false

/-- `a` is an ancestor of (or equal to) `b` in the commit graph of `st`. -/
def isAncestor (st : GitState) (a b : Nat) : Bool :=
  isAncestorFuel st.commits st.nextId a b

/-- Replace the target of an existing branch reference. -/
def setRef (refs : List (String × Nat)) (branch : String) (sha : Nat) :
    List (String × Nat) :=
  refs.map (fun r => if r.1 = branch then (branch, sha) else r)

/-- `octokit.git.updateRef`: 422 when the reference does not exist; without
`force` the update is accepted only when the current tip is an ancestor of
the new commit (a fast-forward). -/
def updateRef (st : GitState) (branch : String) (sha : Nat) (force : Bool) :
    Except GhError GitState :=
  match st.refs.lookup branch with
  | none => .error ⟨some 422, "Reference does not exist"⟩
  | some tip =>
    if force || isAncestor st tip sha then
      .ok { st with refs := setRef st.refs branch sha }
    else .error ⟨some 422, "Update is not a fast forward"⟩

/-- `octokit.git.createRef`: 422 when the reference already exists. -/
def createRef (st : GitState) (branch : String) (sha : Nat) :
    Except GhError GitState :=
  match st.refs.lookup branch with
  | some _ => .error ⟨some 422, "Reference already exists"⟩
  | none => .ok { st with refs := (branch, sha) :: st.refs }

/-- `octokit.repos.getBranch`: 404 when the branch does not exist, otherwise
the tip commit sha together with the tip commit object (whose `tree` field
is `branchData.commit.commit.tree.sha`). -/
def getBranch (st : GitState) (branch : String) : Except GhError (Nat × GitCommit) :=
  match st.refs.lookup branch with
  | none => .error ⟨some 404, "Branch not found"⟩
  | some tip =>
    match st.commits.lookup tip with
    | some c => .ok (tip, c)
    | none => .error ⟨none, "Branch tip commit missing"⟩

/-- The error enrichment of `commitFilesToRepo`'s catch-all branch
(github.ts lines 502-519): a status-carrying error is rewrapped as
`GitHub API Error (status): message.`, any other as
`Failed to commit files: message`. -/
def enrichCommitError (e : GhError) : GhError :=
  match e.status with
  | some s => ⟨some s, "GitHub API Error (" ++ toString s ++ "): " ++ e.message ++ "."⟩
  | none => ⟨none, "Failed to commit files: " ++ e.message⟩

/-- The branch-not-found arm of `commitFilesToRepo` (github.ts lines
454-500): blobs, a tree with no `base_tree`, a commit with an empty parent
list, then `createRef` for the new branch.  `race` models mutation of the
repository by other actors while the function is suspended awaiting the
object-creation calls, applied just before the reference write; sequential
execution instantiates it with `id`. -/
def rootCommitFlow (st : GitState) (branch : String) (files : List ContentFile)
    (message : String) (race : GitState → GitState) :
    Except GhError (Option Nat) × GitState :=
  let (entries, st1) := createBlobs st files
  let (treeSha, st2) := createTree st1 entries none
  let (commitSha, st3) := createCommit st2 message treeSha []
  let st4 := race st3
  match createRef st4 branch commitSha with
  | .ok st5 => (.ok (some commitSha), st5)
  | .error e => (.error e, st4)

/-- `commitFilesToRepo(octokit, owner, repo, branchName, files, message)`
(github.ts lines 384-522).  Empty file list: no-op returning `null`.
Branch exists: blobs, a tree based on the tip's tree, a commit whose sole
parent is the tip, then a non-forced `updateRef`.  A 404 from branch
resolution is caught and routed to the root-commit flow; any other error is
rethrown enriched.  `race` is as in `rootCommitFlow`. -/
def commitFilesToRepo (st : GitState) (branch : String) (files : List ContentFile)
    (message : String) (race : GitState → GitState) :
    Except GhError (Option Nat) × GitState :=
  if files.isEmpty then (.ok none, st)
  else
    match getBranch st branch with
    | .error e =>
      if e.status == some 404 then rootCommitFlow st branch files message race
      else (.error (enrichCommitError e), st)
    | .ok (tip, tipCommit) =>
      let (entries, st1) := createBlobs st files
      let (treeSha, st2) := createTree st1 entries (some tipCommit.tree)
      let (commitSha, st3) := createCommit st2 message treeSha [tip]
      let st4 := race st3
      match updateRef st4 branch commitSha false with
      | .ok st5 => (.ok (some commitSha), st5)
      | .error e =>
        if e.status == some 404 then rootCommitFlow st4 branch files message race
        else (.error (enrichCommitError e), st4)

/-- One call of the commit builder per `(files, message)` pair, sequentially
on one branch (the shape of the bootstrap-then-content commit sequence). -/
def runCommitSeq (st : GitState) (branch : String) :
    List (List ContentFile × String) → List (Except GhError (Option Nat)) × GitState
  | [] => ([], st)
  | (files, message) :: rest =>
    let r := commitFilesToRepo st branch files message id
    let rs := runCommitSeq r.2 branch rest
    (r.1 :: rs.1, rs.2)

/-- The parents recorded for `sha` in `st`. -/
def parentsOf (st : GitState) (sha : Nat) : Option (List Nat) :=
  (st.commits.lookup sha).map GitCommit.parents

/-- `parentChain st prev shas`: starting from tip `prev` (none for an empty
branch), each listed commit's recorded parent list is exactly the previous
commit (empty for the first commit of an empty branch). -/
def parentChain (st : GitState) : Option Nat → List Nat → Bool
  | _, [] => true
  | prev, sha :: rest =>
    (parentsOf st sha ==
      some (match prev with | none => [] | some p => [p])) &&
      parentChain st (some sha) rest

/-- The parent list a new commit receives for a given branch-tip state. -/
def prevParents : Option Nat → List Nat
  | none => []
  | some p => [p]

/-- Store well-formedness: every stored commit id is below the allocation
counter (true of every state the API can produce). -/
def WfC (st : GitState) : Prop :=
  ∀ p ∈ st.commits, p.1 < st.nextId

/-- The branch tip of `st` matches `prev`: absent, or pointing at a stored
commit below the allocation counter. -/
def TipInv (st : GitState) (branch : String) : Option Nat → Prop
  | none => st.refs.lookup branch = none
  | some p =>
    st.refs.lookup branch = some p ∧ p < st.nextId ∧
      ∃ c, st.commits.lookup p = some c

/-! ## GitHub repos model (repository provisioner) -/

/-- One entry of a 422 validation error's `errors` array. -/
structure ValidationErr where
  resource : String
  field : String
  message : String
deriving Repr, DecidableEq

/-- An error from the GitHub repos API as `createGitHubRepo` inspects it:
`e.status`, `e.message`, `e.response?.data?.message`,
`e.response?.data?.errors`. -/
structure GhApiError where
  status : Option Nat
  message : String
  respMessage : Option String
  respErrors : Option (List ValidationErr)
deriving Repr, DecidableEq

/-- A repository held by the GitHub account model. -/
structure RepoData where
  owner : String
  name : String
  description : String
  html_url : String
  default_branch : String
deriving Repr, DecidableEq

/-- The repositories visible to the authenticated user. -/
structure GhReposState where
  repos : List RepoData
deriving Repr, DecidableEq

def findRepo (st : GhReposState) (owner name : String) : Option RepoData :=
  st.repos.find? (fun r => r.owner == owner && r.name == name)

/-- `octokit.repos.createForAuthenticatedUser` (`owner` is the authenticated
login): creating a name the owner already holds yields GitHub's 422
validation error whose `errors` entry says the name already exists. -/
def apiCreateRepo (st : GhReposState) (owner name description : String) :
    Except GhApiError RepoData × GhReposState :=
  match findRepo st owner name with
  | some _ =>
    (.error ⟨some 422, "Validation Failed", some "Repository creation failed.",
       some [⟨"Repository", "name", "name already exists on this account"⟩]⟩, st)
  | none =>
    let r : RepoData :=
      ⟨owner, name, description, "https://github.com/" ++ owner ++ "/" ++ name, "main"⟩
    (.ok r, ⟨r :: st.repos⟩)

/-- `octokit.repos.get`. -/
def apiGetRepo (st : GhReposState) (owner name : String) : Except GhApiError RepoData :=
  match findRepo st owner name with
  | some r => .ok r
  | none => .error ⟨some 404, "Not Found", some "Not Found", none⟩

/-- The metadata `createGitHubRepo` returns. -/
structure GitHubRepoInfo where
  html_url : String
  default_branch : String
  name : String
deriving Repr, DecidableEq

/-- JS `response.data.default_branch || 'main'`: an absent or empty branch
name falls back to `main`. -/
def orMain (s : String) : String := if s == "" then "main" else s

/-- Stands for `JSON.stringify` of a validation-error array in the rewrapped
422 message (the exact JSON text is abstracted; no claim inspects it). -/
def renderValidationErrs (errs : List ValidationErr) : String :=
  String.intercalate "," (errs.map (fun e =>
    e.resource ++ ":" ++ e.field ++ ":" ++ e.message))

/-- `createGitHubRepo(octokit, owner, repoName, description)` (github.ts
lines 306-381): attempt creation; on a 422 whose validation detail (or
response message) says the name already exists, resolve the existing
repository and return its metadata; other 422s are rewrapped; other
statuses are rethrown unchanged. -/
def createGitHubRepo (st : GhReposState) (owner repoName description : String) :
    Except GhApiError GitHubRepoInfo × GhReposState :=
  match apiCreateRepo st owner repoName description with
  | (.ok r, st') => (.ok ⟨r.html_url, orMain r.default_branch, r.name⟩, st')
  | (.error e, st') =>
    if e.status == some 422 then
      let inErrors :=
        match e.respErrors with
        | some errs => errs.any (fun err =>
            err.resource == "Repository" && err.field == "name" &&
              strIncludes (strToLower err.message) "name already exists on this account")
        | none => false
      let inMessage :=
        match e.respMessage with
        | some m => strIncludes (strToLower m) "name already exists on this account"
        | none => false
      if inErrors || inMessage then
        match apiGetRepo st' owner repoName with
        | .ok r => (.ok ⟨r.html_url, orMain r.default_branch, r.name⟩, st')
        | .error ge =>
          (.error ⟨some (ge.status.getD (e.status.getD 500)),
             "Repository " ++ repoName ++
               " already exists, but failed to fetch its details: " ++ ge.message,
             ge.respMessage, ge.respErrors⟩, st')
      else
        (.error ⟨some 422,
           "GitHub API Error (422): " ++ (e.respMessage.getD e.message) ++ "." ++
             (match e.respErrors with
              | some errs => " Details: " ++ renderValidationErrs errs
              | none => ""),
           e.respMessage, e.respErrors⟩, st')
    else (.error e, st')

/-! ## Cloudflare Pages model (hosting provisioner)

`src/lib/cloudflare.ts`.  The REST endpoint is modeled by a project list
plus an injectable failure per endpoint (network rejection, unparsable
body, or an unsuccessful API response with structured errors), and call
counters instrumenting how often each endpoint is hit. -/

/-- One `(code) message` entry of an unsuccessful Cloudflare response. -/
structure CfErrDetail where
  code : Nat
  message : String
deriving Repr, DecidableEq

/-- A Cloudflare Pages project; only `name` is consumed by the callers. -/
structure CloudflarePagesProject where
  name : String
deriving Repr, DecidableEq

/-- A failing outcome of a Cloudflare fetch: the promise rejects, the body
is not JSON, or the response carries `success: false` / a bad status. -/
inductive CfFailure
  | network (message : String)
  | badJson (status : Nat)
  | api (status : Nat) (errors : List CfErrDetail)
deriving Repr, DecidableEq

/-- The Cloudflare Pages account state plus instrumentation. -/
structure CfEnv where
  projects : List CloudflarePagesProject
  lookupFailure : Option CfFailure
  createFailure : Option CfFailure
  lookupCalls : Nat
  createCalls : Nat
deriving Repr, DecidableEq

/-- Per-user credential document (types.ts `ApiConnection`). -/
structure ApiConnection where
  userId : String
  githubApiKey : Option String
  cloudflareApiToken : Option String
  cloudflareApiKey : Option String
  cloudflareEmail : Option String
  cloudflareAccountId : Option String
deriving Repr, DecidableEq

/-- `getCloudflareApiHeaders` (cloudflare.ts 13-27): bearer token, else
legacy key plus email, else throws; only success or failure matters
downstream, so the headers themselves are elided. -/
def getCloudflareApiHeaders (conn : ApiConnection) : Except String Unit :=
  if truthy conn.cloudflareApiToken then .ok ()
  else if truthy conn.cloudflareApiKey && truthy conn.cloudflareEmail then .ok ()
  else .error "Cloudflare API credentials (Token or API Key+Email) are not configured."

/-- `errors?.map(e => \x7b(${e.code}) ${e.message}\x7d).join(', ') || fallback`
(the `messages` fallback array of the source is not modeled; the failure
model carries one structured list). -/
def joinCfErrors (errors : List CfErrDetail) (fallback : String) : String :=
  match errors with
  | [] => fallback
  | _ =>
    String.intercalate ", "
      (errors.map (fun e => "(" ++ toString e.code ++ ") " ++ e.message))

def DEFAULT_HUGO_VERSION : String := "0.121.1"

/-- The project-creation request body (cloudflare.ts 50-80): Hugo build
command and output directory, GitHub source binding, pinned HUGO_VERSION. -/
structure CloudflarePagesProjectRequest where
  name : String
  build_command : String
  destination_dir : String
  root_dir : String
  owner : String
  repo_name : String
  production_branch : String
  hugo_version : String
deriving Repr, DecidableEq

/-- `getCloudflarePagesProject(apiConnection, accountId, projectName)`
(cloudflare.ts 107-142): argument guard and header resolution happen before
the try block; inside it a 404 means absent (null); the catch returns null
for every caught error except one whose message names missing credentials,
which is rethrown. -/
def getCloudflarePagesProject (conn : ApiConnection) (accountId projectName : String)
    (env : CfEnv) : Except String (Option CloudflarePagesProject) × CfEnv :=
  if accountId == "" || projectName == "" then
    (.error "Cloudflare Account ID and Project Name are required.", env)
  else
    match getCloudflareApiHeaders conn with
    | .error e => (.error e, env)
    | .ok _ =>
      let env1 := { env with lookupCalls := env.lookupCalls + 1 }
      let body : Except String (Option CloudflarePagesProject) :=
        match env.lookupFailure with
        | some (.network m) => .error m
        | some (.badJson s) =>
          if s == 404 then .ok none else .error "Unexpected token in JSON"
        | some (.api s errs) =>
          if s == 404 then .ok none
          else .error ("Failed to fetch Cloudflare Pages project: " ++
            joinCfErrors errs ("Cloudflare API Error: Status " ++ toString s))
        | none =>
          match env.projects.find? (fun p => p.name == projectName) with
          | some p => .ok (some p)
          | none => .ok none
      match body with
      | .ok r => (.ok r, env1)
      | .error m =>
        if strStartsWith m "Cloudflare API credentials" then (.error m, env1)
        else (.ok none, env1)

/-- `createCloudflarePagesProject(apiConnection, accountId, projectName,
githubRepoFullName, productionBranch, hugoVersion)` (cloudflare.ts 29-104):
argument guards, header resolution, then the POST; an unsuccessful response
is thrown with the joined structured errors; no catch, so every failure
propagates. -/
def createCloudflarePagesProject (conn : ApiConnection)
    (accountId projectName githubRepoFullName productionBranch hugoVersion : String)
    (env : CfEnv) : Except String CloudflarePagesProject × CfEnv :=
  if accountId == "" then (.error "Cloudflare Account ID is required.", env)
  else if projectName == "" then
    (.error "Cloudflare Pages project name is required.", env)
  else if githubRepoFullName == "" || !(strIncludes githubRepoFullName "/") then
    (.error "GitHub repository full name (owner/repo) is required.", env)
  else
    match getCloudflareApiHeaders conn with
    | .error e => (.error e, env)
    | .ok _ =>
      let ownerRepo := splitSlash githubRepoFullName
      let requestBody : CloudflarePagesProjectRequest :=
        ⟨projectName, "hugo", "public", "/", ownerRepo.getD 0 "", ownerRepo.getD 1 "",
         productionBranch, hugoVersion⟩
      let env1 := { env with createCalls := env.createCalls + 1 }
      match env.createFailure with
      | some (.network m) => (.error m, env1)
      | some (.badJson _) => (.error "Unexpected token in JSON", env1)
      | some (.api s errs) =>
        (.error ("Failed to create Cloudflare Pages project: " ++
          joinCfErrors errs ("Cloudflare API Error: Status " ++ toString s)), env1)
      | none =>
        let p : CloudflarePagesProject := ⟨requestBody.name⟩
        (.ok p, { env1 with projects := p :: env1.projects })

/-! ## Persisted deployment records (Firestore model)

`src/lib/firebase/firestore.ts`.  The blog collection becomes an
association list of documents plus an instrumentation log of every
successful status write.  `db` is always initialized in the model; the one
store failure kept is updating a document that does not exist, which
Firestore's `updateDoc` rejects. -/

/-- The status union of types.ts, plus `live`: simulateBlogCreationProcess
(firestore.ts line 263) writes the string `live`, which is not a member of
the declared `BlogStatus` union. -/
inductive BlogStatus
  | pending
  | creating_repo
  | preparing_site_structure
  | generating_config
  | configuring_theme
  | pushing_content_to_repo
  | ready_for_deployment
  | cloudflare_deploy_pending
  | deploying_to_cloudflare
  | cloudflare_live
  | cloudflare_deployment_failed
  | failed
  | live
deriving Repr, DecidableEq

/-- A blog document, restricted to the fields the orchestration code reads
or writes. -/
structure Blog where
  id : String
  userId : String
  siteName : String
  description : Option String
  status : BlogStatus
  githubRepoUrl : Option String
  liveUrl : Option String
  error : Option String
  deploymentNote : Option String
  cloudflarePagesProjectName : Option String
  cloudflareAccountId : Option String
deriving Repr, DecidableEq

/-- The optional detail fields a status write may carry; `none` means the
key is absent from the partial update, so the stored value is kept. -/
structure StatusDetails where
  githubRepoUrl : Option String
  liveUrl : Option String
  error : Option String
  deploymentNote : Option String
  cloudflarePagesProjectName : Option String
  cloudflareAccountId : Option String
deriving Repr, DecidableEq

def noDetails : StatusDetails := ⟨none, none, none, none, none, none⟩

/-- Partial-update semantics of one field. -/
def mergeField (new old : Option String) : Option String :=
  match new with
  | some v => some v
  | none => old

/-- `updateDoc(blogRef, \x7b status, ...details \x7d)` applied to one document. -/
def applyDetails (b : Blog) (status : BlogStatus) (d : StatusDetails) : Blog :=
  { b with
    status := status
    githubRepoUrl := mergeField d.githubRepoUrl b.githubRepoUrl
    liveUrl := mergeField d.liveUrl b.liveUrl
    error := mergeField d.error b.error
    deploymentNote := mergeField d.deploymentNote b.deploymentNote
    cloudflarePagesProjectName :=
      mergeField d.cloudflarePagesProjectName b.cloudflarePagesProjectName
    cloudflareAccountId := mergeField d.cloudflareAccountId b.cloudflareAccountId }

/-- The blog collection plus the instrumentation log of successful status
writes (most recent first). -/
structure BlogStore where
  docs : List (String × Blog)
  log : List (BlogStatus × StatusDetails)
deriving Repr, DecidableEq

def setDoc (docs : List (String × Blog)) (blogId : String) (b : Blog) :
    List (String × Blog) :=
  docs.map (fun p => if p.1 = blogId then (blogId, b) else p)

/-- `updateBlogStatus(blogId, status, details)` (firestore.ts 155-166): a
partial write merged into the document; any store failure (in the model, a
missing document) is caught and rewrapped as a generic message. -/
def updateBlogStatus (s : BlogStore) (blogId : String) (status : BlogStatus)
    (d : StatusDetails) : Except String BlogStore :=
  match s.docs.lookup blogId with
  | none => .error "Failed to update blog status."
  | some b =>
    .ok ⟨setDoc s.docs blogId (applyDetails b status d), (status, d) :: s.log⟩

/-- `getBlog(blogId, userId)` (firestore.ts 117-151): empty arguments throw;
a document owned by a different user reads as null. -/
def getBlog (s : BlogStore) (blogId userId : String) : Except String (Option Blog) :=
  if blogId == "" || userId == "" then
    .error "Blog ID and User ID are required to fetch a blog."
  else
    match s.docs.lookup blogId with
    | some b => if b.userId != userId then .ok none else .ok (some b)
    | none => .ok none

/-- JS `data.field || undefined`: a stored empty string reads back absent. -/
def normField (o : Option String) : Option String :=
  match o with
  | some s => if s == "" then none else some s
  | none => none

/-- `getApiConnection(userId)` (firestore.ts 365-392). -/
def getApiConnection (conns : List (String × ApiConnection)) (userId : String) :
    Except String (Option ApiConnection) :=
  if userId == "" then .error "User ID is required to get API connections."
  else
    match conns.lookup userId with
    | some c =>
      .ok (some ⟨c.userId, normField c.githubApiKey, normField c.cloudflareApiToken,
        normField c.cloudflareApiKey, normField c.cloudflareEmail,
        normField c.cloudflareAccountId⟩)
    | none => .ok none

/-! ## The hosting-deployment action

`deployToCloudflareAction(userId, blogId)`
(src/app/dashboard/blog/[blogId]/actions.ts 53-138). -/

/-- The world the action runs against. -/
structure DeployWorld where
  store : BlogStore
  connections : List (String × ApiConnection)
  cf : CfEnv
deriving Repr, DecidableEq

/-- The `ActionResult` shape the action resolves with; `Except.error` in the
embedding stands for an uncaught rejection of the server action. -/
structure ActionResult where
  success : Bool
  message : Option String
  error : Option String
  liveUrl : Option String
deriving Repr, DecidableEq

/-- The catch block of `deployToCloudflareAction` (actions.ts 132-137):
persist `cloudflare_deployment_failed` with the wrapped message; if that
write itself fails, the rejection escapes the action. -/
def deployCatch (w : DeployWorld) (blogId msg : String) :
    Except String ActionResult × DeployWorld :=
  let full := "Cloudflare deployment failed: " ++ msg
  match updateBlogStatus w.store blogId .cloudflare_deployment_failed
      ⟨none, none, some full, none, none, none⟩ with
  | .ok s' => (.ok ⟨false, none, some full, none⟩, { w with store := s' })
  | .error e => (.error e, w)

/-- A direct failure write inside the try block (actions.ts 63, 69, 74, 84):
persist `cloudflare_deployment_failed` with `storedError` and return a
failed result with `returned`; a store failure here is caught by the
action's catch block. -/
def deployFail (w : DeployWorld) (blogId storedError returned : String) :
    Except String ActionResult × DeployWorld :=
  match updateBlogStatus w.store blogId .cloudflare_deployment_failed
      ⟨none, none, some storedError, none, none, none⟩ with
  | .ok s' => (.ok ⟨false, none, some returned, none⟩, { w with store := s' })
  | .error e => deployCatch w blogId e

/-- JS `url.replace(/^https?:\/\//, '')`. -/
def stripScheme (s : String) : String :=
  if strStartsWith s "https://" then strDrop s 8
  else if strStartsWith s "http://" then strDrop s 7
  else s

/-- `deployToCloudflareAction(userId, blogId)` (actions.ts 53-138).  The
initial `cloudflare_deploy_pending` write (line 58) happens before the try
block, so its failure escapes uncaught.  The already-live early return
(lines 78-80) reads the record fetched after that initial write.  The
lookup-then-create pair (lines 101-117) makes provisioning idempotent, and
the live URL is derived from the returned project name (line 122). -/
def deployToCloudflareAction (w : DeployWorld) (userId blogId : String) :
    Except String ActionResult × DeployWorld :=
  if userId == "" || blogId == "" then
    (.ok ⟨false, none, some "User ID or Blog ID is missing.", none⟩, w)
  else
    match updateBlogStatus w.store blogId .cloudflare_deploy_pending
        ⟨none, none, none, some "Initiating Cloudflare Pages deployment...",
         none, none⟩ with
    | .error e => (.error e, w)
    | .ok s1 =>
      let w1 : DeployWorld := { w with store := s1 }
      match getApiConnection w1.connections userId with
      | .error e => deployCatch w1 blogId e
      | .ok none =>
        deployFail w1 blogId
          "Cloudflare API credentials or Account ID not found. Please configure them in API Connections."
          "Cloudflare API credentials or Account ID not configured."
      | .ok (some conn) =>
        if !(truthy conn.cloudflareAccountId &&
            (truthy conn.cloudflareApiToken ||
              (truthy conn.cloudflareApiKey && truthy conn.cloudflareEmail))) then
          deployFail w1 blogId
            "Cloudflare API credentials or Account ID not found. Please configure them in API Connections."
            "Cloudflare API credentials or Account ID not configured."
        else
          match getBlog w1.store blogId userId with
          | .error e => deployCatch w1 blogId e
          | .ok none =>
            deployFail w1 blogId "Blog not found or access denied."
              "Blog not found or access denied."
          | .ok (some blog) =>
            if !(truthy blog.githubRepoUrl) then
              deployFail w1 blogId "GitHub repository URL is missing. Cannot deploy."
                "GitHub repository URL is missing for this blog."
            else if blog.status == .cloudflare_live && truthy blog.liveUrl then
              (.ok ⟨true,
                 some ("Blog is already live on Cloudflare: " ++ (blog.liveUrl.getD "")),
                 none, blog.liveUrl⟩, w1)
            else
              let parts := splitSlash (stripScheme (blog.githubRepoUrl.getD ""))
              if parts.length < 3 then
                deployFail w1 blogId "Invalid GitHub repository URL format."
                  "Invalid GitHub repository URL format."
              else
                let githubOwner := parts.getD 1 ""
                let githubRepoName := replaceFirst (parts.getD 2 "") ".git" ""
                let githubRepoFullName := githubOwner ++ "/" ++ githubRepoName
                let projectName := blog.siteName
                match updateBlogStatus w1.store blogId .deploying_to_cloudflare
                    ⟨none, none, none,
                     some ("Creating/linking Cloudflare Pages project: " ++
                       projectName ++ "..."),
                     some projectName, conn.cloudflareAccountId⟩ with
                | .error e => deployCatch w1 blogId e
                | .ok s2 =>
                  let w2 : DeployWorld := { w1 with store := s2 }
                  match getCloudflarePagesProject conn (conn.cloudflareAccountId.getD "")
                      projectName w2.cf with
                  | (.error e, cf1) => deployCatch { w2 with cf := cf1 } blogId e
                  | (.ok found, cf1) =>
                    let w3 : DeployWorld := { w2 with cf := cf1 }
                    match (match found with
                           | some p => (Except.ok p, w3.cf)
                           | none => createCloudflarePagesProject conn
                               (conn.cloudflareAccountId.getD "") projectName
                               githubRepoFullName "main" DEFAULT_HUGO_VERSION w3.cf) with
                    | (.error e, cf2) => deployCatch { w3 with cf := cf2 } blogId e
                    | (.ok p, cf2) =>
                      let w4 : DeployWorld := { w3 with cf := cf2 }
                      let liveUrl := "https://" ++ p.name ++ ".pages.dev"
                      match updateBlogStatus w4.store blogId .cloudflare_live
                          ⟨none, some liveUrl, none,
                           some ("Successfully deployed to Cloudflare Pages! Live at: " ++
                             liveUrl),
                           some p.name, none⟩ with
                      | .error e => deployCatch w4 blogId e
                      | .ok s3 =>
                        (.ok ⟨true,
                           some ("Blog deployed to Cloudflare Pages! Live at: " ++ liveUrl),
                           none, some liveUrl⟩, { w4 with store := s3 })

/-! ## The repository-creation pipeline step

`simulateBlogCreationProcess(blogId, siteName)` (firestore.ts 184-325): a
raw `fetch` of the GitHub create-repository endpoint plus error-message
assembly and the failure transition. -/

/-- One entry of an error response's `errors` array as the message assembly
reads it; `raw` stands for `JSON.stringify` of the entry, used when its
`message` is falsy. -/
structure ErrJson where
  message : Option String
  field : Option String
  raw : String
deriving Repr, DecidableEq

/-- The parsed response body, for both the success shape (`html_url`) and
the error shape (`message`, `errors`). -/
structure RepoJson where
  html_url : Option String
  message : Option String
  errors : Option (List ErrJson)
deriving Repr, DecidableEq

/-- The outcome of the `fetch` call: HTTP flag and status, the body text,
and its JSON parse (`none` models `JSON.parse` throwing). -/
structure GhFetchResponse where
  ok : Bool
  status : Nat
  bodyText : String
  parsed : Option RepoJson
deriving Repr, DecidableEq

/-- The world `simulateBlogCreationProcess` runs against. -/
structure SimWorld where
  store : BlogStore
  connections : List (String × ApiConnection)
  ghResponse : GhFetchResponse
deriving Repr, DecidableEq

/-- The 1000-character bound applied before persisting an error message
(firestore.ts 307-309 and 316-318). -/
def truncate1000 (s : String) : String :=
  if s.length > 1000 then strTake s 997 ++ "..." else s

/-- `text.substring(0, 200)` plus an ellipsis when longer. -/
def snippet200 (s : String) : String :=
  strTake s 200 ++ (if s.length > 200 then "..." else "")

/-- The error-message assembly for a non-ok create-repository response
(firestore.ts 265-304). -/
def githubApiErrorMessage (status : Nat) (bodyText : String)
    (parsed : Option RepoJson) : String :=
  let base := "Failed to create GitHub repository (Status: " ++ toString status ++ ")."
  if bodyText == "" then
    base ++ " No additional error details from GitHub response."
  else
    match parsed with
    | none => base ++ " Raw response: " ++ snippet200 bodyText
    | some j =>
      let gpm := j.message.getD ""
      let gpm :=
        match j.errors with
        | some (e :: es) =>
          let validationDetails := String.intercalate "; " ((e :: es).map (fun er =>
            let msg :=
              match er.message with
              | some m => if m == "" then er.raw else m
              | none => er.raw
            match er.field with
            | some f => if f == "" then msg else f ++ ": " ++ msg
            | none => msg))
          if gpm != "" then gpm ++ " Details: " ++ validationDetails
          else "Validation errors: " ++ validationDetails
        | _ => gpm
      if gpm != "" then gpm
      else if strTrim bodyText != "\x7b\x7d" && strTrim bodyText != "" then
        base ++ " GitHub's raw response: " ++ snippet200 bodyText
      else base ++ " GitHub returned an empty or non-standard error response."

/-- The catch block of `simulateBlogCreationProcess` (firestore.ts 313-324):
truncate, then attempt the `failed` write; a store failure of that write is
itself swallowed, so the function never throws. -/
def simulateCatch (s : BlogStore) (blogId msg : String) : BlogStore :=
  let m := truncate1000 ("Simulation process failed: " ++ msg)
  match updateBlogStatus s blogId .failed ⟨none, none, some m, none, none, none⟩ with
  | .ok s' => s'
  | .error _ => s

/-- `simulateBlogCreationProcess(blogId, siteName)` (firestore.ts 184-325).
`db` is initialized in the model, so the initial guard does not fire;
`siteName` and the sanitized description only feed the request body, which
the modeled response subsumes. -/
def simulateBlogCreationProcess (w : SimWorld) (blogId siteName : String) : SimWorld :=
  match w.store.docs.lookup blogId with
  | none =>
    { w with store := simulateCatch w.store blogId ("Blog with ID " ++ blogId ++ " not found.") }
  | some blogData =>
    if blogData.userId == "" then
      { w with store := simulateCatch w.store blogId "User ID not found in blog document." }
    else
      match updateBlogStatus w.store blogId .creating_repo noDetails with
      | .error e => { w with store := simulateCatch w.store blogId e }
      | .ok s1 =>
        match getApiConnection w.connections blogData.userId with
        | .error e => { w with store := simulateCatch s1 blogId e }
        | .ok connOpt =>
          let githubApiKey := connOpt.bind ApiConnection.githubApiKey
          if !(truthy githubApiKey) then
            { w with store := (simulateCatch s1 blogId
                "GitHub API key is missing. Please add your GitHub Personal Access Token in the API Connections settings.") }
          else
            let r := w.ghResponse
            let _ := siteName
            if r.ok then
              match r.parsed with
              | none =>
                match updateBlogStatus s1 blogId .failed
                    ⟨none, none,
                     some ("Successfully created repo but failed to parse GitHub response. Status: " ++
                       toString r.status), none, none, none⟩ with
                | .ok s2 => { w with store := s2 }
                | .error e => { w with store := simulateCatch s1 blogId e }
              | some j =>
                match updateBlogStatus s1 blogId .live
                    ⟨j.html_url, some "Deployment setup pending...", none, none,
                     none, none⟩ with
                | .ok s2 => { w with store := s2 }
                | .error e => { w with store := simulateCatch s1 blogId e }
            else
              let m := truncate1000 ("GitHub API Error: " ++
                githubApiErrorMessage r.status r.bodyText r.parsed)
              match updateBlogStatus s1 blogId .failed
                  ⟨none, none, some m, none, none, none⟩ with
              | .ok s2 => { w with store := s2 }
              | .error e => { w with store := simulateCatch s1 blogId e }

/-! ## Concrete scenarios used by closed theorems and witnesses -/

/-- A deployment record that has already reached the terminal live state. -/
def alreadyLiveBlog : Blog :=
  ⟨"b1", "u1", "my-blog", none, .cloudflare_live,
   some "https://github.com/alice/my-blog", some "https://my-blog.pages.dev",
   none, none, some "my-blog", some "acct"⟩

/-- A credential document carrying a bearer token and an account id. -/
def demoConnection : ApiConnection :=
  ⟨"u1", some "ghkey", some "cftoken", none, none, some "acct"⟩

/-- The already-live record, its credentials, and a hosting account that
already holds the `my-blog` project. -/
def alreadyLiveWorld : DeployWorld :=
  ⟨⟨[("b1", alreadyLiveBlog)], []⟩, [("u1", demoConnection)],
   ⟨[⟨"my-blog"⟩], none, none, 0, 0⟩⟩

/-- A record that is ready for hosting provisioning and not yet live. -/
def readyBlog : Blog :=
  ⟨"b1", "u1", "my-blog", none, .ready_for_deployment,
   some "https://github.com/alice/my-blog", none, none, none, none, none⟩

/-- The ready record with credentials and an empty hosting account. -/
def readyWorld : DeployWorld :=
  ⟨⟨[("b1", readyBlog)], []⟩, [("u1", demoConnection)], ⟨[], none, none, 0, 0⟩⟩

/-- The ready record whose hosting account holds the project already, but
whose lookup endpoint fails transiently with a network error. -/
def lookupFailWorld : DeployWorld :=
  ⟨⟨[("b1", readyBlog)], []⟩, [("u1", demoConnection)],
   ⟨[⟨"my-blog"⟩], some (.network "boom"), none, 0, 0⟩⟩

/-- A parametrized hosting world: one pending record owned by `u1`, a valid
GitHub URL, bearer-token credentials, an empty hosting account. -/
def mkHostingWorld (siteName acct token : String) : DeployWorld :=
  ⟨⟨[("b1", ⟨"b1", "u1", siteName, none, .pending,
      some "https://github.com/alice/my-blog", none, none, none, none, none⟩)], []⟩,
   [("u1", ⟨"u1", some "ghkey", some token, none, none, some acct⟩)],
   ⟨[], none, none, 0, 0⟩⟩

/-- The ready record carrying a stale error diagnostic from a past failure. -/
def erroredBlog : Blog :=
  ⟨"b1", "u1", "my-blog", none, .ready_for_deployment,
   some "https://github.com/alice/my-blog", none, some "previous failure",
   none, none, none⟩

/-- The errored record with credentials and the project already present. -/
def erroredWorld : DeployWorld :=
  ⟨⟨[("b1", erroredBlog)], []⟩, [("u1", demoConnection)],
   ⟨[⟨"my-blog"⟩], none, none, 0, 0⟩⟩

/-- A 1001-character provider message. -/
def longProviderMsg : String := ⟨List.replicate 1001 'x'⟩

/-- The ready record whose project-creation endpoint fails with a structured
error carrying the long provider message. -/
def createFailWorld : DeployWorld :=
  ⟨⟨[("b1", readyBlog)], []⟩, [("u1", demoConnection)],
   ⟨[], none, some (.api 500 [⟨8000, longProviderMsg⟩]), 0, 0⟩⟩

/-- A repository-creation world whose GitHub call succeeds. -/
def simWorldOk : SimWorld :=
  ⟨⟨[("b1", readyBlog)], []⟩, [("u1", demoConnection)],
   ⟨true, 201, "body", some ⟨some "https://github.com/alice/my-blog", none, none⟩⟩⟩

/-- A repository-creation world whose GitHub call fails with a structured
validation error. -/
def simWorldFail : SimWorld :=
  ⟨⟨[("b1", readyBlog)], []⟩, [("u1", demoConnection)],
   ⟨false, 422, "body",
    some ⟨none, some "quota exceeded", some [⟨some "name too long", some "name", "raw"⟩]⟩⟩⟩

/-! ## Structural lemmas about the git-data model -/

lemma createBlob_commits (st : GitState) (c : String) :
    (createBlob st c).2.commits = st.commits := by
  unfold createBlob; split <;> rfl

lemma createBlob_trees (st : GitState) (c : String) :
    (createBlob st c).2.trees = st.trees := by
  unfold createBlob; split <;> rfl

lemma createBlob_refs (st : GitState) (c : String) :
    (createBlob st c).2.refs = st.refs := by
  unfold createBlob; split <;> rfl

lemma createBlob_nextId_le (st : GitState) (c : String) :
    st.nextId ≤ (createBlob st c).2.nextId := by
  unfold createBlob; split
  · exact Nat.le_refl _
  · exact Nat.le_succ _

lemma createBlobs_commits (files : List ContentFile) :
    ∀ st : GitState, (createBlobs st files).2.commits = st.commits := by
  induction files with
  | nil => intro st; rfl
  | cons f rest ih =>
    intro st
    show (createBlobs (createBlob st f.content).2 rest).2.commits = st.commits
    rw [ih, createBlob_commits]

lemma createBlobs_trees (files : List ContentFile) :
    ∀ st : GitState, (createBlobs st files).2.trees = st.trees := by
  induction files with
  | nil => intro st; rfl
  | cons f rest ih =>
    intro st
    show (createBlobs (createBlob st f.content).2 rest).2.trees = st.trees
    rw [ih, createBlob_trees]

lemma createBlobs_refs (files : List ContentFile) :
    ∀ st : GitState, (createBlobs st files).2.refs = st.refs := by
  induction files with
  | nil => intro st; rfl
  | cons f rest ih =>
    intro st
    show (createBlobs (createBlob st f.content).2 rest).2.refs = st.refs
    rw [ih, createBlob_refs]

lemma createBlobs_nextId_le (files : List ContentFile) :
    ∀ st : GitState, st.nextId ≤ (createBlobs st files).2.nextId := by
  induction files with
  | nil => intro st; exact Nat.le_refl _
  | cons f rest ih =>
    intro st
    calc st.nextId ≤ (createBlob st f.content).2.nextId := createBlob_nextId_le st f.content
      _ ≤ (createBlobs (createBlob st f.content).2 rest).2.nextId := ih _

lemma lookup_setRef_self (refs : List (String × Nat)) (branch : String) (sha : Nat)
    (h : (refs.lookup branch).isSome) :
    (setRef refs branch sha).lookup branch = some sha := by
  induction refs with
  | nil => simp [List.lookup] at h
  | cons r rest ih =>
    obtain ⟨k, v⟩ := r
    by_cases hb : k = branch
    · subst hb
      show List.lookup k
        ((if (k, v).1 = k then (k, sha) else (k, v)) :: setRef rest k sha) = some sha
      rw [if_pos rfl]
      simp [List.lookup]
    · have hk : (branch == k) = false := by
        simp only [beq_eq_false_iff_ne, ne_eq]
        exact fun he => hb he.symm
      have h2 : (List.lookup branch rest).isSome := by
        simpa [List.lookup, hk] using h
      show List.lookup branch
        ((if (k, v).1 = branch then (branch, sha) else (k, v)) ::
          setRef rest branch sha) = some sha
      rw [if_neg hb]
      simpa [List.lookup, hk] using ih h2

lemma isAncestorFuel_self (commits : List (Nat × GitCommit)) (fuel a : Nat)
    (h : 1 ≤ fuel) : isAncestorFuel commits fuel a a = true := by
  cases fuel with
  | zero => omega
  | succ f => simp [isAncestorFuel]

lemma isAncestor_of_parent (st : GitState) (tip sha : Nat) (c : GitCommit)
    (hl : st.commits.lookup sha = some c) (hp : c.parents = [tip])
    (hs : st.nextId = sha + 1) (h1 : 1 ≤ sha) :
    isAncestor st tip sha = true := by
  unfold isAncestor
  rw [hs]
  show isAncestorFuel st.commits (sha + 1) tip sha = true
  by_cases he : tip = sha
  · subst he
    exact isAncestorFuel_self _ _ _ (by omega)
  · have hbe : (tip == sha) = false := by simp [he]
    simp only [isAncestorFuel, hbe, Bool.false_or, hl, hp, List.any_cons, List.any_nil,
      Bool.or_false]
    exact isAncestorFuel_self _ _ _ h1

/-! ## The two successful flows of the commit builder -/

lemma commitFiles_update_spec (st : GitState) (branch : String) (files : List ContentFile)
    (message : String) (tip : Nat) (tipCommit : GitCommit)
    (hf : files ≠ []) (hb : st.refs.lookup branch = some tip)
    (hc : st.commits.lookup tip = some tipCommit) :
    ∃ sha t st',
      commitFilesToRepo st branch files message id = (.ok (some sha), st') ∧
      st'.commits = (sha, ⟨t, [tip], message⟩) :: st.commits ∧
      st'.trees.lookup t =
        some (applyTreeEntries ((st.trees.lookup tipCommit.tree).getD [])
          (createBlobs st files).1) ∧
      st'.refs.lookup branch = some sha ∧
      st.nextId ≤ sha ∧ st'.nextId = sha + 1 := by
  rcases hE : createBlobs st files with ⟨entries, st1⟩
  have h1c : st1.commits = st.commits := by
    have h := createBlobs_commits files st; rwa [hE] at h
  have h1t : st1.trees = st.trees := by
    have h := createBlobs_trees files st; rwa [hE] at h
  have h1r : st1.refs = st.refs := by
    have h := createBlobs_refs files st; rwa [hE] at h
  have h1n : st.nextId ≤ st1.nextId := by
    have h := createBlobs_nextId_le files st; rwa [hE] at h
  have hne : files.isEmpty = false := by simp [hf]
  have hgb : getBranch st branch = .ok (tip, tipCommit) := by
    simp only [getBranch, hb, hc]
  simp only [commitFilesToRepo, hne, Bool.false_eq_true, if_false, hgb, hE,
    createTree, createCommit, updateRef, id]
  simp only [h1c, h1t, h1r, hb]
  have hanc : isAncestor
      { nextId := st1.nextId + 1 + 1, blobs := st1.blobs,
        trees :=
          (st1.nextId,
            applyTreeEntries ((List.lookup tipCommit.tree st.trees).getD []) entries) ::
            st.trees,
        commits :=
          (st1.nextId + 1, { tree := st1.nextId, parents := [tip], message := message }) ::
            st.commits,
        refs := st.refs }
      tip (st1.nextId + 1) = true := by
    refine isAncestor_of_parent _ tip _ ⟨st1.nextId, [tip], message⟩ ?_ rfl rfl (by omega)
    simp [List.lookup]
  simp only [hanc, Bool.false_or, if_true]
  refine ⟨st1.nextId + 1, st1.nextId, _, rfl, rfl, ?_, ?_, by omega, rfl⟩
  · simp [List.lookup]
  · exact lookup_setRef_self st.refs branch _ (by rw [hb]; rfl)

lemma commitFiles_root_spec (st : GitState) (branch : String) (files : List ContentFile)
    (message : String)
    (hf : files ≠ []) (hb : st.refs.lookup branch = none) :
    ∃ sha t st',
      commitFilesToRepo st branch files message id = (.ok (some sha), st') ∧
      st'.commits = (sha, ⟨t, [], message⟩) :: st.commits ∧
      st'.trees.lookup t = some (applyTreeEntries [] (createBlobs st files).1) ∧
      st'.refs.lookup branch = some sha ∧
      st.nextId ≤ sha ∧ st'.nextId = sha + 1 := by
  rcases hE : createBlobs st files with ⟨entries, st1⟩
  have h1c : st1.commits = st.commits := by
    have h := createBlobs_commits files st; rwa [hE] at h
  have h1t : st1.trees = st.trees := by
    have h := createBlobs_trees files st; rwa [hE] at h
  have h1r : st1.refs = st.refs := by
    have h := createBlobs_refs files st; rwa [hE] at h
  have h1n : st.nextId ≤ st1.nextId := by
    have h := createBlobs_nextId_le files st; rwa [hE] at h
  have hne : files.isEmpty = false := by simp [hf]
  have hgb : getBranch st branch = .error ⟨some 404, "Branch not found"⟩ := by
    simp only [getBranch, hb]
  simp only [commitFilesToRepo, hne, Bool.false_eq_true, if_false, hgb,
    rootCommitFlow, hE, createTree, createCommit, createRef, id]
  simp only [h1c, h1t, h1r, hb]
  refine ⟨st1.nextId + 1, st1.nextId, _, rfl, rfl, ?_, ?_, by omega, rfl⟩
  · simp [List.lookup]
  · simp [List.lookup]

/-! ## One commit-builder step, and sequences of steps -/

lemma commitFiles_step (st : GitState) (branch : String) (files : List ContentFile)
    (message : String) (prev : Option Nat)
    (hf : files ≠ []) (hwf : WfC st) (htip : TipInv st branch prev) :
    ∃ sha st',
      commitFilesToRepo st branch files message id = (.ok (some sha), st') ∧
      parentsOf st' sha = some (prevParents prev) ∧
      st'.refs.lookup branch = some sha ∧
      WfC st' ∧ sha < st'.nextId ∧ st.nextId ≤ st'.nextId ∧
      (∀ k c, k < st.nextId → st.commits.lookup k = some c →
        st'.commits.lookup k = some c) := by
  cases prev with
  | none =>
    obtain ⟨sha, t, st', heq, hcm, htr, hrf, hle, hnx⟩ :=
      commitFiles_root_spec st branch files message hf htip
    refine ⟨sha, st', heq, ?_, hrf, ?_, by omega, by omega, ?_⟩
    · simp [parentsOf, prevParents, hcm, List.lookup]
    · intro p hp
      rw [hcm] at hp
      rcases List.mem_cons.mp hp with hp | hp
      · subst hp; omega
      · have := hwf p hp; omega
    · intro k c hk hkl
      have hkn : (k == sha) = false := by
        simp only [beq_eq_false_iff_ne, ne_eq]; omega
      simp [hcm, List.lookup, hkn, hkl]
  | some p =>
    obtain ⟨hb, hplt, c0, hc⟩ := htip
    obtain ⟨sha, t, st', heq, hcm, htr, hrf, hle, hnx⟩ :=
      commitFiles_update_spec st branch files message p c0 hf hb hc
    refine ⟨sha, st', heq, ?_, hrf, ?_, by omega, by omega, ?_⟩
    · simp [parentsOf, prevParents, hcm, List.lookup]
    · intro q hq
      rw [hcm] at hq
      rcases List.mem_cons.mp hq with hq | hq
      · subst hq; omega
      · have := hwf q hq; omega
    · intro k c hk hkl
      have hkn : (k == sha) = false := by
        simp only [beq_eq_false_iff_ne, ne_eq]; omega
      simp [hcm, List.lookup, hkn, hkl]

lemma parentChain_cons (st : GitState) (prev : Option Nat) (sha : Nat) (shas : List Nat)
    (h1 : parentsOf st sha = some (prevParents prev))
    (h2 : parentChain st (some sha) shas = true) :
    parentChain st prev (sha :: shas) = true := by
  cases prev <;> simp only [prevParents] at h1 <;> simp [parentChain, h1, h2]

lemma runCommitSeq_spec (calls : List (List ContentFile × String)) :
    ∀ (st : GitState) (branch : String) (prev : Option Nat),
      (∀ p ∈ calls, p.1 ≠ []) → WfC st → TipInv st branch prev →
      ∃ shas : List Nat,
        (runCommitSeq st branch calls).1 = shas.map (fun s => Except.ok (some s)) ∧
        parentChain (runCommitSeq st branch calls).2 prev shas = true ∧
        WfC (runCommitSeq st branch calls).2 ∧
        st.nextId ≤ (runCommitSeq st branch calls).2.nextId ∧
        (∀ k c, k < st.nextId → st.commits.lookup k = some c →
          ((runCommitSeq st branch calls).2).commits.lookup k = some c) := by
  induction calls with
  | nil =>
    intro st branch prev hne hwf htip
    exact ⟨[], rfl, rfl, hwf, Nat.le_refl _, fun k c _ h => h⟩
  | cons pair rest ih =>
    intro st branch prev hne hwf htip
    obtain ⟨files, message⟩ := pair
    have hf : files ≠ [] := hne (files, message) (List.mem_cons_self _ _)
    obtain ⟨sha, st1, heq, hpar, href, hwf1, hlt1, hle1, hpres1⟩ :=
      commitFiles_step st branch files message prev hf hwf htip
    obtain ⟨c1, hc1l, hc1p⟩ :
        ∃ c, st1.commits.lookup sha = some c ∧ c.parents = prevParents prev := by
      unfold parentsOf at hpar
      rcases hx : st1.commits.lookup sha with _ | c
      · rw [hx] at hpar; simp at hpar
      · rw [hx] at hpar
        exact ⟨c, rfl, by simpa using hpar⟩
    have htip1 : TipInv st1 branch (some sha) := ⟨href, hlt1, c1, hc1l⟩
    have hrest : ∀ q ∈ rest, q.1 ≠ [] := fun q hq => hne q (List.mem_cons_of_mem _ hq)
    obtain ⟨shas, hres, hchain, hwf2, hle2, hpres2⟩ := ih st1 branch (some sha) hrest hwf1 htip1
    have hfin1 : (runCommitSeq st branch ((files, message) :: rest)).1 =
        Except.ok (some sha) :: (runCommitSeq st1 branch rest).1 := by
      simp only [runCommitSeq, heq]
    have hfin2 : (runCommitSeq st branch ((files, message) :: rest)).2 =
        (runCommitSeq st1 branch rest).2 := by
      simp only [runCommitSeq, heq]
    have hparfin : parentsOf (runCommitSeq st1 branch rest).2 sha =
        some (prevParents prev) := by
      have hl := hpres2 sha c1 hlt1 hc1l
      unfold parentsOf
      rw [hl]
      simp [hc1p]
    refine ⟨sha :: shas, ?_, ?_, ?_, ?_, ?_⟩
    · rw [hfin1, hres]; rfl
    · rw [hfin2]
      exact parentChain_cons _ prev sha shas hparfin hchain
    · rw [hfin2]; exact hwf2
    · rw [hfin2]; omega
    · intro k c hk hkl
      rw [hfin2]
      exact hpres2 k c (by omega) (hpres1 k c hk hkl)

/-! ## Claim C1 -/

/-- C1: for every `commitFilesToRepo` call with a non-empty file list: a
branch that resolves as not-found (404) is not an error — the call builds a
tree with no base, a commit with an empty parent list and creates the
branch reference at it; an existing tip becomes the sole parent and its
tree the base of the new tree; and a sequence of calls on an initially
empty repository yields a chain in which the first commit is a root commit
and each later call's parent is the previous call's returned id. -/
theorem C1_commit_builder_parent_structure :
    (∀ (st : GitState) (branch : String) (files : List ContentFile) (message : String),
      files ≠ [] → st.refs.lookup branch = none →
      ∃ sha t st',
        commitFilesToRepo st branch files message id = (.ok (some sha), st') ∧
        st'.commits.lookup sha = some ⟨t, [], message⟩ ∧
        st'.trees.lookup t = some (applyTreeEntries [] (createBlobs st files).1) ∧
        st'.refs.lookup branch = some sha) ∧
    (∀ (st : GitState) (branch : String) (files : List ContentFile) (message : String)
        (tip : Nat) (tipCommit : GitCommit),
      files ≠ [] → st.refs.lookup branch = some tip →
      st.commits.lookup tip = some tipCommit →
      ∃ sha t st',
        commitFilesToRepo st branch files message id = (.ok (some sha), st') ∧
        st'.commits.lookup sha = some ⟨t, [tip], message⟩ ∧
        st'.trees.lookup t = some (applyTreeEntries
          ((st.trees.lookup tipCommit.tree).getD []) (createBlobs st files).1) ∧
        st'.refs.lookup branch = some sha) ∧
    (∀ (calls : List (List ContentFile × String)) (branch : String),
      (∀ p ∈ calls, p.1 ≠ []) →
      ∃ shas : List Nat,
        (runCommitSeq emptyGit branch calls).1 = shas.map (fun s => Except.ok (some s)) ∧
        parentChain (runCommitSeq emptyGit branch calls).2 none shas = true) := by
  refine ⟨?_, ?_, ?_⟩
  · intro st branch files message hf hb
    obtain ⟨sha, t, st', heq, hcm, htr, hrf, _, _⟩ :=
      commitFiles_root_spec st branch files message hf hb
    exact ⟨sha, t, st', heq, by simp [hcm, List.lookup], htr, hrf⟩
  · intro st branch files message tip tipCommit hf hb hc
    obtain ⟨sha, t, st', heq, hcm, htr, hrf, _, _⟩ :=
      commitFiles_update_spec st branch files message tip tipCommit hf hb hc
    exact ⟨sha, t, st', heq, by simp [hcm, List.lookup], htr, hrf⟩
  · intro calls branch hne
    obtain ⟨shas, h1, h2, _, _, _⟩ :=
      runCommitSeq_spec calls emptyGit branch none hne
        (fun p hp => absurd hp (List.not_mem_nil p)) rfl
    exact ⟨shas, h1, h2⟩

/-- Witness for C1: the three parts applied at concrete repositories. -/
theorem C1_commit_builder_parent_structure_witness :
    (∃ sha t st',
      commitFilesToRepo emptyGit "main" [⟨"README.md", "hello"⟩] "Initial commit" id =
        (.ok (some sha), st') ∧
      st'.commits.lookup sha = some ⟨t, [], "Initial commit"⟩ ∧
      st'.trees.lookup t = some (applyTreeEntries []
        (createBlobs emptyGit [⟨"README.md", "hello"⟩]).1) ∧
      st'.refs.lookup "main" = some sha) ∧
    (∃ sha t st',
      commitFilesToRepo (⟨3, [(0, "hello")], [(1, [("README.md", 0)])],
          [(2, ⟨1, [], "init"⟩)], [("main", 2)]⟩ : GitState)
        "main" [⟨"post.md", "x"⟩] "second" id = (.ok (some sha), st') ∧
      st'.commits.lookup sha = some ⟨t, [2], "second"⟩ ∧
      st'.trees.lookup t = some (applyTreeEntries
        (((⟨3, [(0, "hello")], [(1, [("README.md", 0)])],
          [(2, ⟨1, [], "init"⟩)], [("main", 2)]⟩ : GitState).trees.lookup 1).getD [])
        (createBlobs (⟨3, [(0, "hello")], [(1, [("README.md", 0)])],
          [(2, ⟨1, [], "init"⟩)], [("main", 2)]⟩ : GitState) [⟨"post.md", "x"⟩]).1) ∧
      st'.refs.lookup "main" = some sha) ∧
    (∃ shas : List Nat,
      (runCommitSeq emptyGit "main"
        [([⟨"README.md", "hello"⟩], "c1"), ([⟨"a.md", "x"⟩], "c2")]).1 =
          shas.map (fun s => Except.ok (some s)) ∧
      parentChain (runCommitSeq emptyGit "main"
        [([⟨"README.md", "hello"⟩], "c1"), ([⟨"a.md", "x"⟩], "c2")]).2 none shas = true) :=
  ⟨C1_commit_builder_parent_structure.1 emptyGit "main" [⟨"README.md", "hello"⟩]
      "Initial commit" (by decide) rfl,
   C1_commit_builder_parent_structure.2.1 _ "main" [⟨"post.md", "x"⟩] "second" 2
      ⟨1, [], "init"⟩ (by decide) (by decide) (by decide),
   C1_commit_builder_parent_structure.2.2
      [([⟨"README.md", "hello"⟩], "c1"), ([⟨"a.md", "x"⟩], "c2")] "main" (by decide)⟩

/-! ## Claim C4 -/

/-- C4: when `commitFilesToRepo` updates an existing branch, the reference
write is requested without force, so if the tip changed while the objects
were being created (the `race` transformer) and the raced tip is not an
ancestor of the new commit, the reference update is rejected and the whole
operation fails, leaving the branch reference exactly where the concurrent
writer put it — never force-overwritten. -/
theorem C4_fast_forward_only_update (st st1 st2 st3 st4 : GitState) (branch : String)
    (files : List ContentFile) (message : String) (tip tip' treeSha sha : Nat)
    (tipCommit : GitCommit) (entries : List (String × Nat)) (race : GitState → GitState)
    (hf : files ≠ []) (hb : st.refs.lookup branch = some tip)
    (hc : st.commits.lookup tip = some tipCommit)
    (h1 : createBlobs st files = (entries, st1))
    (h2 : createTree st1 entries (some tipCommit.tree) = (treeSha, st2))
    (h3 : createCommit st2 message treeSha [tip] = (sha, st3))
    (h4 : race st3 = st4)
    (h5 : st4.refs.lookup branch = some tip')
    (h6 : isAncestor st4 tip' sha = false) :
    commitFilesToRepo st branch files message race =
      (.error (enrichCommitError ⟨some 422, "Update is not a fast forward"⟩), st4) ∧
    (commitFilesToRepo st branch files message race).2.refs.lookup branch = some tip' := by
  have hne : files.isEmpty = false := by simp [hf]
  have hgb : getBranch st branch = .ok (tip, tipCommit) := by
    simp only [getBranch, hb, hc]
  have hmain : commitFilesToRepo st branch files message race =
      (.error (enrichCommitError ⟨some 422, "Update is not a fast forward"⟩), st4) := by
    simp only [commitFilesToRepo, hne, Bool.false_eq_true, if_false, hgb, h1, h2, h3, h4,
      updateRef, h5, h6, Bool.false_or, if_false]
    rfl
  exact ⟨hmain, by rw [hmain]; exact h5⟩

/-- Witness for C4: a concurrent writer moves `main` from commit 0 to the
unrelated commit 1 between object creation and the reference write; the
call fails and `main` still points at commit 1. -/
theorem C4_fast_forward_only_update_witness :
    commitFilesToRepo
        (⟨2, [], [], [(0, ⟨0, [], "a"⟩), (1, ⟨0, [], "b"⟩)], [("main", 0)]⟩ : GitState)
        "main" [⟨"f.md", "x"⟩] "m" (fun s => { s with refs := [("main", 1)] }) =
      (.error (enrichCommitError ⟨some 422, "Update is not a fast forward"⟩),
       (⟨5, [(2, "x")], [(3, [("f.md", 2)])],
         [(4, ⟨3, [0], "m"⟩), (0, ⟨0, [], "a"⟩), (1, ⟨0, [], "b"⟩)],
         [("main", 1)]⟩ : GitState)) ∧
    (commitFilesToRepo
        (⟨2, [], [], [(0, ⟨0, [], "a"⟩), (1, ⟨0, [], "b"⟩)], [("main", 0)]⟩ : GitState)
        "main" [⟨"f.md", "x"⟩] "m"
        (fun s => { s with refs := [("main", 1)] })).2.refs.lookup "main" = some 1 :=
  C4_fast_forward_only_update
    (⟨2, [], [], [(0, ⟨0, [], "a"⟩), (1, ⟨0, [], "b"⟩)], [("main", 0)]⟩ : GitState)
    (⟨3, [(2, "x")], [], [(0, ⟨0, [], "a"⟩), (1, ⟨0, [], "b"⟩)], [("main", 0)]⟩ : GitState)
    (⟨4, [(2, "x")], [(3, [("f.md", 2)])],
      [(0, ⟨0, [], "a"⟩), (1, ⟨0, [], "b"⟩)], [("main", 0)]⟩ : GitState)
    (⟨5, [(2, "x")], [(3, [("f.md", 2)])],
      [(4, ⟨3, [0], "m"⟩), (0, ⟨0, [], "a"⟩), (1, ⟨0, [], "b"⟩)], [("main", 0)]⟩ : GitState)
    (⟨5, [(2, "x")], [(3, [("f.md", 2)])],
      [(4, ⟨3, [0], "m"⟩), (0, ⟨0, [], "a"⟩), (1, ⟨0, [], "b"⟩)], [("main", 1)]⟩ : GitState)
    "main" [⟨"f.md", "x"⟩] "m" 0 1 3 4 ⟨0, [], "a"⟩ [("f.md", 2)]
    (fun s => { s with refs := [("main", 1)] })
    (by decide) rfl rfl rfl rfl rfl rfl rfl (by decide)

/-! ## Claim C2 -/

lemma strIncludes_exists_msg :
    strIncludes (strToLower "name already exists on this account")
      "name already exists on this account" = true := by decide

/-- The already-exists resolution path of `createGitHubRepo`: when the owner
already holds the name, the 422 is recognized and the existing repository's
metadata is returned, with no state change and no error. -/
lemma createGitHubRepo_existing (st : GhReposState) (owner name description : String)
    (r : RepoData) (hr : findRepo st owner name = some r) :
    createGitHubRepo st owner name description =
      (.ok ⟨r.html_url, orMain r.default_branch, r.name⟩, st) := by
  simp only [createGitHubRepo, apiCreateRepo, hr, apiGetRepo]
  simp [strIncludes_exists_msg]

/-- C2: repository provisioning is idempotent — a creation attempt that
fails because the owner already holds the name resolves and returns the
existing repository's metadata instead of raising, so two successive calls
with the same owner and name both succeed and return the same URL. -/
theorem C2_repo_provisioning_idempotent :
    (∀ (st : GhReposState) (owner name description : String) (r : RepoData),
      findRepo st owner name = some r →
      createGitHubRepo st owner name description =
        (.ok ⟨r.html_url, orMain r.default_branch, r.name⟩, st)) ∧
    (∀ (st : GhReposState) (owner name d1 d2 : String),
      findRepo st owner name = none →
      ∃ info1 info2 st1 st2,
        createGitHubRepo st owner name d1 = (.ok info1, st1) ∧
        createGitHubRepo st1 owner name d2 = (.ok info2, st2) ∧
        info2.html_url = info1.html_url) := by
  refine ⟨fun st owner name description r hr =>
    createGitHubRepo_existing st owner name description r hr, ?_⟩
  intro st owner name d1 d2 h0
  have h1 : createGitHubRepo st owner name d1 =
      (.ok ⟨"https://github.com/" ++ owner ++ "/" ++ name, orMain "main", name⟩,
       ⟨(⟨owner, name, d1, "https://github.com/" ++ owner ++ "/" ++ name, "main"⟩ :
          RepoData) :: st.repos⟩) := by
    simp only [createGitHubRepo, apiCreateRepo, h0]
  have hfind : findRepo
      ⟨(⟨owner, name, d1, "https://github.com/" ++ owner ++ "/" ++ name, "main"⟩ :
        RepoData) :: st.repos⟩ owner name =
      some ⟨owner, name, d1, "https://github.com/" ++ owner ++ "/" ++ name, "main"⟩ := by
    simp [findRepo, List.find?]
  have h2 := createGitHubRepo_existing _ owner name d2 _ hfind
  exact ⟨_, _, _, _, h1, h2, rfl⟩

/-- Witness for C2: resolving an existing `alice/blog`, and creating then
re-creating `alice/blog` from an empty account. -/
theorem C2_repo_provisioning_idempotent_witness :
    (createGitHubRepo ⟨[⟨"alice", "blog", "d", "https://github.com/alice/blog", "main"⟩]⟩
        "alice" "blog" "desc" =
      (.ok ⟨"https://github.com/alice/blog", orMain "main", "blog"⟩,
       ⟨[⟨"alice", "blog", "d", "https://github.com/alice/blog", "main"⟩]⟩)) ∧
    (∃ info1 info2 st1 st2,
      createGitHubRepo ⟨[]⟩ "alice" "blog" "first" = (.ok info1, st1) ∧
      createGitHubRepo st1 "alice" "blog" "second" = (.ok info2, st2) ∧
      info2.html_url = info1.html_url) :=
  ⟨C2_repo_provisioning_idempotent.1
      ⟨[⟨"alice", "blog", "d", "https://github.com/alice/blog", "main"⟩]⟩
      "alice" "blog" "desc"
      ⟨"alice", "blog", "d", "https://github.com/alice/blog", "main"⟩ rfl,
   C2_repo_provisioning_idempotent.2 ⟨[]⟩ "alice" "blog" "first" "second" rfl⟩

/-! ## Claim C3 -/

/-- C3 (divergence evidence): re-invoking `deployToCloudflareAction` on a
record that is already `cloudflare_live` with a live URL is not a no-op.
The action overwrites the persisted status with `cloudflare_deploy_pending`
before reading the record, so the already-live early return never fires: a
hosting-project lookup call is performed (`lookupCalls` becomes 1) and the
status field is rewritten, even though the returned result is a success
carrying the (re-derived) live URL. -/
theorem C3_already_live_reinvocation_not_noop :
    (deployToCloudflareAction alreadyLiveWorld "u1" "b1").2.cf.lookupCalls = 1 ∧
    (BlogStatus.cloudflare_deploy_pending,
      (⟨none, none, none, some "Initiating Cloudflare Pages deployment...",
        none, none⟩ : StatusDetails)) ∈
      (deployToCloudflareAction alreadyLiveWorld "u1" "b1").2.store.log ∧
    (deployToCloudflareAction alreadyLiveWorld "u1" "b1").1 =
      .ok ⟨true, some "Blog deployed to Cloudflare Pages! Live at: https://my-blog.pages.dev",
        none, some "https://my-blog.pages.dev"⟩ :=
  ⟨rfl, by decide, rfl⟩

/-! ## Claim C9 -/

/-- C9 (counterexample to the claim as stated): with an empty `userId`
argument and a stored record owned by `u1` (which differs from the
argument), `getBlog` throws its argument-validation error instead of
returning null. -/
theorem C9_empty_userId_throws :
    getBlog ⟨[("b1", alreadyLiveBlog)], []⟩ "b1" "" =
      .error "Blog ID and User ID are required to fetch a blog." := rfl

/-- C9 (amended): for non-empty arguments, `getBlog` returns null both for
an absent id and for a record owned by a different user; and in no case —
whatever the arguments — does it return a record whose owner differs from
the `userId` argument. -/
theorem C9_owner_scoped_read :
    (∀ (s : BlogStore) (blogId userId : String), blogId ≠ "" → userId ≠ "" →
      (s.docs.lookup blogId = none → getBlog s blogId userId = .ok none) ∧
      (∀ b, s.docs.lookup blogId = some b → b.userId ≠ userId →
        getBlog s blogId userId = .ok none)) ∧
    (∀ (s : BlogStore) (blogId userId : String) (b : Blog),
      getBlog s blogId userId = .ok (some b) → b.userId = userId) := by
  constructor
  · intro s blogId userId h1 h2
    constructor
    · intro hl
      simp [getBlog, h1, h2, hl]
    · intro b hl hne
      simp [getBlog, h1, h2, hl, hne]
  · intro s blogId userId b hg
    by_cases h1 : blogId = ""
    · simp [getBlog, h1] at hg
    by_cases h2 : userId = ""
    · simp [getBlog, h1, h2] at hg
    rcases hl : s.docs.lookup blogId with _ | b'
    · simp [getBlog, h1, h2, hl] at hg
    by_cases ho : b'.userId = userId
    · simp [getBlog, h1, h2, hl, ho] at hg
      rw [← hg]
      exact ho
    · simp [getBlog, h1, h2, hl, ho] at hg

/-- Witness for C9: a store holding `b1` owned by `u1` reads as null for a
different user and for an unknown id. -/
theorem C9_owner_scoped_read_witness :
    (⟨[("b1", alreadyLiveBlog)], []⟩ : BlogStore).docs.lookup "b1" = some alreadyLiveBlog ∧
    getBlog ⟨[("b1", alreadyLiveBlog)], []⟩ "b1" "mallory" = .ok none ∧
    getBlog ⟨[("b1", alreadyLiveBlog)], []⟩ "zz" "u1" = .ok none :=
  ⟨rfl,
   (C9_owner_scoped_read.1 ⟨[("b1", alreadyLiveBlog)], []⟩ "b1" "mallory"
      (by decide) (by decide)).2 alreadyLiveBlog rfl (by decide),
   (C9_owner_scoped_read.1 ⟨[("b1", alreadyLiveBlog)], []⟩ "zz" "u1"
      (by decide) (by decide)).1 rfl⟩

/-! ## Claim C10 -/

lemma listIsPrefix_append_false : ∀ (pat a x : List Char),
    pat.length ≤ a.length → listIsPrefix pat a = false →
    listIsPrefix pat (a ++ x) = false := by
  intro pat
  induction pat with
  | nil => intro a x h hf; simp [listIsPrefix] at hf
  | cons p ps ih =>
    intro a x h hf
    cases a with
    | nil => simp at h
    | cons c cs =>
      simp only [listIsPrefix, List.cons_append, Bool.and_eq_false_iff] at hf ⊢
      rcases hf with hf | hf
      · exact Or.inl hf
      · exact Or.inr (ih cs x (by simpa using h) hf)

lemma strStartsWith_fetchFail (x : String) :
    strStartsWith ("Failed to fetch Cloudflare Pages project: " ++ x)
      "Cloudflare API credentials" = false := by
  show listIsPrefix ("Cloudflare API credentials").data
    (("Failed to fetch Cloudflare Pages project: " ++ x)).data = false
  rw [String.data_append]
  exact listIsPrefix_append_false _ _ _ (by decide) (by decide)

/-- C10 (counterexample to the claim as stated): an empty account id makes
the lookup propagate its argument-validation error — a failure other than
the missing-credentials error that is not converted to null. -/
theorem C10_empty_account_propagates :
    getCloudflarePagesProject demoConnection "" "my-blog" ⟨[], none, none, 0, 0⟩ =
      (.error "Cloudflare Account ID and Project Name are required.",
       ⟨[], none, none, 0, 0⟩) := rfl

/-- C10 (amended): apart from the two configuration errors thrown before
the request (missing credentials, missing account id or project name),
every failing lookup — network rejection, unparsable body, unsuccessful
API response — returns null; consequently the caller treats the project as
absent and proceeds to attempt creation, as the `lookupFailWorld` run
shows: the project exists but the transient lookup failure routes the
action into one creation call. -/
theorem C10_lookup_failure_reads_as_absent :
    (∀ (conn : ApiConnection) (acct name : String) (env : CfEnv) (f : CfFailure),
      acct ≠ "" → name ≠ "" → getCloudflareApiHeaders conn = .ok () →
      env.lookupFailure = some f →
      (∀ m, f = .network m → strStartsWith m "Cloudflare API credentials" = false) →
      (getCloudflarePagesProject conn acct name env).1 = .ok none ∧
      (getCloudflarePagesProject conn acct name env).2.lookupCalls = env.lookupCalls + 1) ∧
    ((deployToCloudflareAction lookupFailWorld "u1" "b1").2.cf.createCalls = 1 ∧
     (deployToCloudflareAction lookupFailWorld "u1" "b1").2.cf.lookupCalls = 1 ∧
     (deployToCloudflareAction lookupFailWorld "u1" "b1").1 =
       .ok ⟨true, some "Blog deployed to Cloudflare Pages! Live at: https://my-blog.pages.dev",
         none, some "https://my-blog.pages.dev"⟩) := by
  constructor
  · intro conn acct name env f h1 h2 hh hf hnm
    cases f with
    | network m =>
      have hm := hnm m rfl
      simp [getCloudflarePagesProject, h1, h2, hh, hf, hm]
    | badJson st =>
      by_cases h4 : st = 404
      · simp [getCloudflarePagesProject, h1, h2, hh, hf, h4]
      · have hx : strStartsWith "Unexpected token in JSON"
            "Cloudflare API credentials" = false := by decide
        simp [getCloudflarePagesProject, h1, h2, hh, hf, h4, hx]
    | api st errs =>
      by_cases h4 : st = 404
      · simp [getCloudflarePagesProject, h1, h2, hh, hf, h4]
      · simp [getCloudflarePagesProject, h1, h2, hh, hf, h4, strStartsWith_fetchFail]
  · exact ⟨rfl, rfl, rfl⟩

/-- Witness for C10: a network failure while the project exists reads as
absent and still counts one lookup call. -/
theorem C10_lookup_failure_reads_as_absent_witness :
    (getCloudflarePagesProject demoConnection "acct" "my-blog"
        ⟨[⟨"my-blog"⟩], some (.network "boom"), none, 0, 0⟩).1 = .ok none ∧
    (getCloudflarePagesProject demoConnection "acct" "my-blog"
        ⟨[⟨"my-blog"⟩], some (.network "boom"), none, 0, 0⟩).2.lookupCalls = 0 + 1 :=
  C10_lookup_failure_reads_as_absent.1 demoConnection "acct" "my-blog"
    ⟨[⟨"my-blog"⟩], some (.network "boom"), none, 0, 0⟩ (.network "boom")
    (by decide) (by decide) rfl rfl (fun m hm => by cases hm; decide)

/-! ## Store lemmas -/

lemma lookup_setDoc_self (docs : List (String × Blog)) (blogId : String) (b : Blog)
    (h : (docs.lookup blogId).isSome) :
    (setDoc docs blogId b).lookup blogId = some b := by
  induction docs with
  | nil => simp [List.lookup] at h
  | cons r rest ih =>
    obtain ⟨k, v⟩ := r
    by_cases hb : k = blogId
    · subst hb
      show List.lookup k
        ((if (k, v).1 = k then (k, b) else (k, v)) :: setDoc rest k b) = some b
      rw [if_pos rfl]
      simp [List.lookup]
    · have hk : (blogId == k) = false := by
        simp only [beq_eq_false_iff_ne, ne_eq]
        exact fun he => hb he.symm
      have h2 : (List.lookup blogId rest).isSome := by
        simpa [List.lookup, hk] using h
      show List.lookup blogId
        ((if (k, v).1 = blogId then (blogId, b) else (k, v)) ::
          setDoc rest blogId b) = some b
      rw [if_neg hb]
      simpa [List.lookup, hk] using ih h2

lemma updateBlogStatus_ok (s : BlogStore) (blogId : String) (b : Blog)
    (status : BlogStatus) (d : StatusDetails)
    (h : s.docs.lookup blogId = some b) :
    updateBlogStatus s blogId status d =
      .ok ⟨setDoc s.docs blogId (applyDetails b status d), (status, d) :: s.log⟩ := by
  simp [updateBlogStatus, h]

lemma getApiConnection_isOk (conns : List (String × ApiConnection)) (userId : String)
    (h : userId ≠ "") : ∃ o, getApiConnection conns userId = .ok o := by
  unfold getApiConnection
  rw [if_neg (by simpa using h)]
  cases conns.lookup userId <;> exact ⟨_, rfl⟩

lemma string_append_ne_empty (a x : String) (h : a.length ≠ 0) : a ++ x ≠ "" := by
  intro hc
  have := congrArg String.length hc
  rw [String.length_append] at this
  have h0 : ("" : String).length = 0 := rfl
  omega


/-! ## The deployment action: write-trace characterization -/

lemma deployFail_spec (w : DeployWorld) (blogId storedError returned : String) (b : Blog)
    (h : w.store.docs.lookup blogId = some b) :
    deployFail w blogId storedError returned =
      (.ok ⟨false, none, some returned, none⟩,
       { w with store := ⟨setDoc w.store.docs blogId
           (applyDetails b .cloudflare_deployment_failed
             ⟨none, none, some storedError, none, none, none⟩),
         (.cloudflare_deployment_failed,
           ⟨none, none, some storedError, none, none, none⟩) :: w.store.log⟩ }) := by
  simp [deployFail, updateBlogStatus, h]

lemma deployCatch_spec (w : DeployWorld) (blogId msg : String) (b : Blog)
    (h : w.store.docs.lookup blogId = some b) :
    deployCatch w blogId msg =
      (.ok ⟨false, none, some ("Cloudflare deployment failed: " ++ msg), none⟩,
       { w with store := ⟨setDoc w.store.docs blogId
           (applyDetails b .cloudflare_deployment_failed
             ⟨none, none, some ("Cloudflare deployment failed: " ++ msg),
              none, none, none⟩),
         (.cloudflare_deployment_failed,
           ⟨none, none, some ("Cloudflare deployment failed: " ++ msg),
            none, none, none⟩) :: w.store.log⟩ }) := by
  simp [deployCatch, updateBlogStatus, h]


lemma goodEntries_failPending (msg : String) (d0 : StatusDetails)
    (hm : msg ≠ "") (hd0 : d0.error = none) :
    ∀ e ∈ ([(BlogStatus.cloudflare_deployment_failed,
        (⟨none, none, some msg, none, none, none⟩ : StatusDetails)),
       (BlogStatus.cloudflare_deploy_pending, d0)] :
        List (BlogStatus × StatusDetails)),
      (∀ m', e.2.error = some m' → m' ≠ "") ∧
      (e.1 = .cloudflare_live →
        e.2.error = none ∧
        ∃ n, e.2.liveUrl = some ("https://" ++ n ++ ".pages.dev") ∧
          e.2.cloudflarePagesProjectName = some n) := by
  intro e he
  rcases List.mem_cons.mp he with rfl | he
  · refine ⟨fun m' hm' => ?_, fun h => by cases h⟩
    simp only [Option.some.injEq] at hm'
    rw [← hm']; exact hm
  rcases List.mem_cons.mp he with rfl | he
  · exact ⟨fun m' hm' => by rw [hd0] at hm'; exact absurd hm' (by simp),
      fun h => by cases h⟩
  · cases he

lemma goodEntries_failMid (msg : String) (d0 d2 : StatusDetails)
    (hm : msg ≠ "") (hd0 : d0.error = none) (hd2 : d2.error = none) :
    ∀ e ∈ ([(BlogStatus.cloudflare_deployment_failed,
        (⟨none, none, some msg, none, none, none⟩ : StatusDetails)),
       (BlogStatus.deploying_to_cloudflare, d2),
       (BlogStatus.cloudflare_deploy_pending, d0)] :
        List (BlogStatus × StatusDetails)),
      (∀ m', e.2.error = some m' → m' ≠ "") ∧
      (e.1 = .cloudflare_live →
        e.2.error = none ∧
        ∃ n, e.2.liveUrl = some ("https://" ++ n ++ ".pages.dev") ∧
          e.2.cloudflarePagesProjectName = some n) := by
  intro e he
  rcases List.mem_cons.mp he with rfl | he
  · refine ⟨fun m' hm' => ?_, fun h => by cases h⟩
    simp only [Option.some.injEq] at hm'
    rw [← hm']; exact hm
  rcases List.mem_cons.mp he with rfl | he
  · exact ⟨fun m' hm' => by rw [hd2] at hm'; exact absurd hm' (by simp),
      fun h => by cases h⟩
  rcases List.mem_cons.mp he with rfl | he
  · exact ⟨fun m' hm' => by rw [hd0] at hm'; exact absurd hm' (by simp),
      fun h => by cases h⟩
  · cases he

lemma goodEntries_liveMid (n note : String) (d0 d2 : StatusDetails)
    (hd0 : d0.error = none) (hd2 : d2.error = none) :
    ∀ e ∈ ([(BlogStatus.cloudflare_live,
        (⟨none, some ("https://" ++ n ++ ".pages.dev"), none, some note,
          some n, none⟩ : StatusDetails)),
       (BlogStatus.deploying_to_cloudflare, d2),
       (BlogStatus.cloudflare_deploy_pending, d0)] :
        List (BlogStatus × StatusDetails)),
      (∀ m', e.2.error = some m' → m' ≠ "") ∧
      (e.1 = .cloudflare_live →
        e.2.error = none ∧
        ∃ n', e.2.liveUrl = some ("https://" ++ n' ++ ".pages.dev") ∧
          e.2.cloudflarePagesProjectName = some n') := by
  intro e he
  rcases List.mem_cons.mp he with rfl | he
  · exact ⟨fun m' hm' => absurd hm' (by simp), fun _ => ⟨rfl, n, rfl, rfl⟩⟩
  rcases List.mem_cons.mp he with rfl | he
  · exact ⟨fun m' hm' => by rw [hd2] at hm'; exact absurd hm' (by simp),
      fun h => by cases h⟩
  rcases List.mem_cons.mp he with rfl | he
  · exact ⟨fun m' hm' => by rw [hd0] at hm'; exact absurd hm' (by simp),
      fun h => by cases h⟩
  · cases he


lemma deployAction_spec (w : DeployWorld) (userId blogId : String) (b : Blog)
    (hu : userId ≠ "") (hbid : blogId ≠ "")
    (hl : w.store.docs.lookup blogId = some b) :
    ∃ (newEntries : List (BlogStatus × StatusDetails)) (r : ActionResult)
      (w' : DeployWorld),
      deployToCloudflareAction w userId blogId = (.ok r, w') ∧
      w'.store.log = newEntries ++ w.store.log ∧
      (∀ e ∈ newEntries,
        (∀ m, e.2.error = some m → m ≠ "") ∧
        (e.1 = .cloudflare_live →
          e.2.error = none ∧
          ∃ n, e.2.liveUrl = some ("https://" ++ n ++ ".pages.dev") ∧
            e.2.cloudflarePagesProjectName = some n)) ∧
      (r.success = false →
        ∃ d, newEntries.head? = some (.cloudflare_deployment_failed, d) ∧
          ∃ m, d.error = some m ∧ m ≠ "") := by
  have hguard : (userId == "" || blogId == "") = false := by simp [hu, hbid]
  have hupd1 := updateBlogStatus_ok w.store blogId b .cloudflare_deploy_pending
    ⟨none, none, none, some "Initiating Cloudflare Pages deployment...", none, none⟩ hl
  have hl1 : (setDoc w.store.docs blogId (applyDetails b .cloudflare_deploy_pending
      ⟨none, none, none, some "Initiating Cloudflare Pages deployment...",
       none, none⟩)).lookup blogId =
      some (applyDetails b .cloudflare_deploy_pending
        ⟨none, none, none, some "Initiating Cloudflare Pages deployment...",
         none, none⟩) :=
    lookup_setDoc_self _ _ _ (by rw [hl]; rfl)
  simp only [deployToCloudflareAction, hguard, Bool.false_eq_true, if_false, hupd1]
  obtain ⟨o, hga⟩ := getApiConnection_isOk w.connections userId hu
  simp only [hga]
  cases o with
  | none =>
    rw [deployFail_spec _ _ _ _ _ hl1]
    exact ⟨[(.cloudflare_deployment_failed,
        ⟨none, none, some "Cloudflare API credentials or Account ID not found. Please configure them in API Connections.", none, none, none⟩),
       (.cloudflare_deploy_pending,
        ⟨none, none, none, some "Initiating Cloudflare Pages deployment...", none, none⟩)],
      _, _, rfl, rfl,
      goodEntries_failPending _ _ (by decide) rfl,
      fun _ => ⟨_, rfl, _, rfl, by decide⟩⟩
  | some conn =>
    by_cases hcred : (truthy conn.cloudflareAccountId &&
        (truthy conn.cloudflareApiToken ||
          (truthy conn.cloudflareApiKey && truthy conn.cloudflareEmail))) = true
    case neg =>
      have hcred' : (!(truthy conn.cloudflareAccountId &&
          (truthy conn.cloudflareApiToken ||
            (truthy conn.cloudflareApiKey && truthy conn.cloudflareEmail)))) = true := by
        simp only [Bool.not_eq_true] at hcred
        simp [hcred]
      simp only [hcred', if_true]
      rw [deployFail_spec _ _ _ _ _ hl1]
      exact ⟨[(.cloudflare_deployment_failed,
          ⟨none, none, some "Cloudflare API credentials or Account ID not found. Please configure them in API Connections.", none, none, none⟩),
         (.cloudflare_deploy_pending,
          ⟨none, none, none, some "Initiating Cloudflare Pages deployment...", none, none⟩)],
        _, _, rfl, rfl,
        goodEntries_failPending _ _ (by decide) rfl,
        fun _ => ⟨_, rfl, _, rfl, by decide⟩⟩
    case pos =>
      have hcred' : (!(truthy conn.cloudflareAccountId &&
          (truthy conn.cloudflareApiToken ||
            (truthy conn.cloudflareApiKey && truthy conn.cloudflareEmail)))) = false := by
        simp [hcred]
      simp only [hcred', Bool.false_eq_true, if_false]
      by_cases howner : (applyDetails b .cloudflare_deploy_pending
          ⟨none, none, none, some "Initiating Cloudflare Pages deployment...",
           none, none⟩).userId ≠ userId
      case pos =>
        have hgb : getBlog ⟨setDoc w.store.docs blogId (applyDetails b .cloudflare_deploy_pending
            ⟨none, none, none, some "Initiating Cloudflare Pages deployment...",
             none, none⟩), (.cloudflare_deploy_pending,
            ⟨none, none, none, some "Initiating Cloudflare Pages deployment...",
             none, none⟩) :: w.store.log⟩ blogId userId = .ok none := by
          simp only [getBlog, hl1]
          simp [howner, hbid, hu]
        simp only [hgb]
        rw [deployFail_spec _ _ _ _ _ hl1]
        exact ⟨[(.cloudflare_deployment_failed,
            ⟨none, none, some "Blog not found or access denied.", none, none, none⟩),
           (.cloudflare_deploy_pending,
            ⟨none, none, none, some "Initiating Cloudflare Pages deployment...", none, none⟩)],
          _, _, rfl, rfl,
          goodEntries_failPending _ _ (by decide) rfl,
          fun _ => ⟨_, rfl, _, rfl, by decide⟩⟩
      case neg =>
        have hgb : getBlog ⟨setDoc w.store.docs blogId (applyDetails b .cloudflare_deploy_pending
            ⟨none, none, none, some "Initiating Cloudflare Pages deployment...",
             none, none⟩), (.cloudflare_deploy_pending,
            ⟨none, none, none, some "Initiating Cloudflare Pages deployment...",
             none, none⟩) :: w.store.log⟩ blogId userId =
            .ok (some (applyDetails b .cloudflare_deploy_pending
              ⟨none, none, none, some "Initiating Cloudflare Pages deployment...",
               none, none⟩)) := by
          simp only [getBlog, hl1]
          simp only [ne_eq, Decidable.not_not] at howner
          simp [howner, hbid, hu]
        simp only [hgb]
        by_cases hurl : truthy (applyDetails b .cloudflare_deploy_pending
            ⟨none, none, none, some "Initiating Cloudflare Pages deployment...",
             none, none⟩).githubRepoUrl = true
        case neg =>
          have hurl' : (!truthy (applyDetails b .cloudflare_deploy_pending
              ⟨none, none, none, some "Initiating Cloudflare Pages deployment...",
               none, none⟩).githubRepoUrl) = true := by
            simp only [Bool.not_eq_true] at hurl
            simp [hurl]
          simp only [hurl', if_true]
          rw [deployFail_spec _ _ _ _ _ hl1]
          exact ⟨[(.cloudflare_deployment_failed,
              ⟨none, none, some "GitHub repository URL is missing. Cannot deploy.", none, none, none⟩),
             (.cloudflare_deploy_pending,
              ⟨none, none, none, some "Initiating Cloudflare Pages deployment...", none, none⟩)],
            _, _, rfl, rfl,
            goodEntries_failPending _ _ (by decide) rfl,
            fun _ => ⟨_, rfl, _, rfl, by decide⟩⟩
        case pos =>
          have hurl' : (!truthy (applyDetails b .cloudflare_deploy_pending
              ⟨none, none, none, some "Initiating Cloudflare Pages deployment...",
               none, none⟩).githubRepoUrl) = false := by simp [hurl]
          have hstat : ((applyDetails b .cloudflare_deploy_pending
              ⟨none, none, none, some "Initiating Cloudflare Pages deployment...",
               none, none⟩).status == BlogStatus.cloudflare_live) = false := by
            simp [applyDetails]
          simp only [hurl', Bool.false_eq_true, if_false, hstat, Bool.false_and]
          by_cases hparts : (splitSlash (stripScheme ((applyDetails b .cloudflare_deploy_pending
              ⟨none, none, none, some "Initiating Cloudflare Pages deployment...",
               none, none⟩).githubRepoUrl.getD ""))).length < 3
          case pos =>
            rw [if_pos hparts]
            rw [deployFail_spec _ _ _ _ _ hl1]
            exact ⟨[(.cloudflare_deployment_failed,
                ⟨none, none, some "Invalid GitHub repository URL format.", none, none, none⟩),
               (.cloudflare_deploy_pending,
                ⟨none, none, none, some "Initiating Cloudflare Pages deployment...", none, none⟩)],
              _, _, rfl, rfl,
              goodEntries_failPending _ _ (by decide) rfl,
              fun _ => ⟨_, rfl, _, rfl, by decide⟩⟩
          case neg =>
            rw [if_neg hparts]
            rw [updateBlogStatus_ok _ _ _ _ _ hl1]
            have hl2 : (setDoc (setDoc w.store.docs blogId
                (applyDetails b .cloudflare_deploy_pending
                  ⟨none, none, none, some "Initiating Cloudflare Pages deployment...",
                   none, none⟩)) blogId
                (applyDetails (applyDetails b .cloudflare_deploy_pending
                  ⟨none, none, none, some "Initiating Cloudflare Pages deployment...",
                   none, none⟩) .deploying_to_cloudflare
                  ⟨none, none, none,
                   some ("Creating/linking Cloudflare Pages project: " ++
                     (applyDetails b .cloudflare_deploy_pending
                       ⟨none, none, none, some "Initiating Cloudflare Pages deployment...",
                        none, none⟩).siteName ++ "..."),
                   some (applyDetails b .cloudflare_deploy_pending
                     ⟨none, none, none, some "Initiating Cloudflare Pages deployment...",
                      none, none⟩).siteName,
                   conn.cloudflareAccountId⟩)).lookup blogId =
                some (applyDetails (applyDetails b .cloudflare_deploy_pending
                  ⟨none, none, none, some "Initiating Cloudflare Pages deployment...",
                   none, none⟩) .deploying_to_cloudflare
                  ⟨none, none, none,
                   some ("Creating/linking Cloudflare Pages project: " ++
                     (applyDetails b .cloudflare_deploy_pending
                       ⟨none, none, none, some "Initiating Cloudflare Pages deployment...",
                        none, none⟩).siteName ++ "..."),
                   some (applyDetails b .cloudflare_deploy_pending
                     ⟨none, none, none, some "Initiating Cloudflare Pages deployment...",
                      none, none⟩).siteName,
                   conn.cloudflareAccountId⟩) :=
              lookup_setDoc_self _ _ _ (by rw [hl1]; rfl)
            rcases hlk : getCloudflarePagesProject conn (conn.cloudflareAccountId.getD "")
                (applyDetails b .cloudflare_deploy_pending
                  ⟨none, none, none, some "Initiating Cloudflare Pages deployment...",
                   none, none⟩).siteName w.cf with ⟨lr, cf1⟩
            simp only [hlk]
            cases lr with
            | error e =>
              dsimp only
              rw [deployCatch_spec _ _ _ _ hl2]
              exact ⟨[(.cloudflare_deployment_failed,
                  ⟨none, none, some ("Cloudflare deployment failed: " ++ e), none, none, none⟩),
                 (.deploying_to_cloudflare, _),
                 (.cloudflare_deploy_pending,
                  ⟨none, none, none, some "Initiating Cloudflare Pages deployment...", none, none⟩)],
                _, _, rfl, rfl,
                goodEntries_failMid _ _ _ (string_append_ne_empty _ _ (by decide)) rfl rfl,
                fun _ => ⟨_, rfl, _, rfl, string_append_ne_empty _ _ (by decide)⟩⟩
            | ok found =>
              cases found with
              | some p =>
                dsimp only
                rw [updateBlogStatus_ok _ _ _ _ _ hl2]
                refine ⟨[(.cloudflare_live,
                    ⟨none, some ("https://" ++ p.name ++ ".pages.dev"), none,
                     some ("Successfully deployed to Cloudflare Pages! Live at: " ++
                       ("https://" ++ p.name ++ ".pages.dev")),
                     some p.name, none⟩),
                   (.deploying_to_cloudflare, _),
                   (.cloudflare_deploy_pending,
                    ⟨none, none, none, some "Initiating Cloudflare Pages deployment...", none, none⟩)],
                  _, _, rfl, rfl,
                  goodEntries_liveMid _ _ _ _ rfl rfl,
                  fun hfalse => by simp at hfalse⟩
              | none =>
                dsimp only
                split
                case _ e cf2 heq =>
                  rw [deployCatch_spec _ _ _ _ hl2]
                  exact ⟨[(.cloudflare_deployment_failed,
                      ⟨none, none, some ("Cloudflare deployment failed: " ++ e), none, none, none⟩),
                     (.deploying_to_cloudflare, _),
                     (.cloudflare_deploy_pending,
                      ⟨none, none, none, some "Initiating Cloudflare Pages deployment...", none, none⟩)],
                    _, _, rfl, rfl,
                    goodEntries_failMid _ _ _ (string_append_ne_empty _ _ (by decide)) rfl rfl,
                    fun _ => ⟨_, rfl, _, rfl, string_append_ne_empty _ _ (by decide)⟩⟩
                case _ p cf2 heq =>
                  rw [updateBlogStatus_ok _ _ _ _ _ hl2]
                  refine ⟨[(.cloudflare_live,
                      ⟨none, some ("https://" ++ p.name ++ ".pages.dev"), none,
                       some ("Successfully deployed to Cloudflare Pages! Live at: " ++
                         ("https://" ++ p.name ++ ".pages.dev")),
                       some p.name, none⟩),
                     (.deploying_to_cloudflare, _),
                     (.cloudflare_deploy_pending,
                      ⟨none, none, none, some "Initiating Cloudflare Pages deployment...", none, none⟩)],
                    _, _, rfl, rfl,
                    goodEntries_liveMid _ _ _ _ rfl rfl,
                    fun hfalse => by simp at hfalse⟩


/-! ## The repository-creation step: write-trace characterization -/

lemma truncate1000_length (s : String) : (truncate1000 s).length ≤ 1000 := by
  unfold truncate1000
  split
  · rw [String.length_append]
    have h1 : (strTake s 997).length ≤ 997 := by
      show (s.data.take 997).length ≤ 997
      simp
    have h2 : ("..." : String).length = 3 := rfl
    omega
  · omega

lemma truncate1000_ne_empty (s : String) (h : s ≠ "") : truncate1000 s ≠ "" := by
  unfold truncate1000
  split
  · intro hc
    have hlen := congrArg String.length hc
    rw [String.length_append] at hlen
    have h3 : ("..." : String).length = 3 := rfl
    have h0 : ("" : String).length = 0 := rfl
    omega
  · exact h

set_option maxRecDepth 10000 in
lemma repr_length_le (n : Nat) (h : n < 1000) : (Nat.repr n).length ≤ 3 := by
  have hall : ∀ m < 1000, (Nat.repr m).length ≤ 3 := by decide
  exact hall n h

lemma simulateCatch_missing (s : BlogStore) (blogId msg : String)
    (h : s.docs.lookup blogId = none) : simulateCatch s blogId msg = s := by
  simp [simulateCatch, updateBlogStatus, h]

lemma simulateCatch_present (s : BlogStore) (blogId msg : String) (b : Blog)
    (h : s.docs.lookup blogId = some b) :
    simulateCatch s blogId msg =
      ⟨setDoc s.docs blogId (applyDetails b .failed
        ⟨none, none, some (truncate1000 ("Simulation process failed: " ++ msg)),
         none, none, none⟩),
       (.failed, ⟨none, none,
         some (truncate1000 ("Simulation process failed: " ++ msg)),
         none, none, none⟩) :: s.log⟩ := by
  simp [simulateCatch, updateBlogStatus, h]


lemma simulate_spec (w : SimWorld) (blogId siteName : String) :
    ∃ newEntries : List (BlogStatus × StatusDetails),
      (simulateBlogCreationProcess w blogId siteName).store.log =
        newEntries ++ w.store.log ∧
      (∀ e ∈ newEntries,
        (∀ m, e.2.error = some m →
          m ≠ "" ∧ (w.ghResponse.status < 1000 → m.length ≤ 1000)) ∧
        (e.1 = .live → e.2.error = none) ∧
        (e.1 = .failed → ∃ m, e.2.error = some m)) := by
  unfold simulateBlogCreationProcess
  rcases hl : w.store.docs.lookup blogId with _ | blogData
  · rw [simulateCatch_missing _ _ _ hl]
    exact ⟨[], rfl, fun e he => absurd he (List.not_mem_nil e)⟩
  · simp only []
    by_cases huid : (blogData.userId == "") = true
    · rw [if_pos huid, simulateCatch_present _ _ _ _ hl]
      refine ⟨[(.failed, ⟨none, none,
          some (truncate1000 ("Simulation process failed: " ++
            "User ID not found in blog document.")), none, none, none⟩)], rfl, ?_⟩
      intro e he
      rcases List.mem_cons.mp he with rfl | he
      · refine ⟨fun m hm => ?_, ⟨fun hlive => absurd hlive (by simp), fun _ => ⟨_, rfl⟩⟩⟩
        simp only [Option.some.injEq] at hm
        subst hm
        exact ⟨truncate1000_ne_empty _ (string_append_ne_empty _ _ (by decide)),
          fun _ => truncate1000_length _⟩
      · cases he
    · rw [if_neg huid]
      rw [updateBlogStatus_ok w.store blogId blogData .creating_repo noDetails hl]
      have huid' : blogData.userId ≠ "" := by simpa using huid
      obtain ⟨o, hga⟩ := getApiConnection_isOk w.connections blogData.userId huid'
      simp only [hga]
      have hl1 : (setDoc w.store.docs blogId
          (applyDetails blogData .creating_repo noDetails)).lookup blogId =
          some (applyDetails blogData .creating_repo noDetails) :=
        lookup_setDoc_self _ _ _ (by rw [hl]; rfl)
      by_cases hkey : truthy (o.bind ApiConnection.githubApiKey) = true
      case neg =>
        have hkey' : (!truthy (o.bind ApiConnection.githubApiKey)) = true := by
          simp only [Bool.not_eq_true] at hkey
          simp [hkey]
        rw [if_pos hkey']
        rw [simulateCatch_present _ _ _ _ hl1]
        refine ⟨[(.failed, ⟨none, none,
            some (truncate1000 ("Simulation process failed: " ++
              "GitHub API key is missing. Please add your GitHub Personal Access Token in the API Connections settings.")),
            none, none, none⟩),
          (.creating_repo, noDetails)], rfl, ?_⟩
        intro e he
        rcases List.mem_cons.mp he with rfl | he
        · refine ⟨fun m hm => ?_, ⟨fun hlive => absurd hlive (by simp), fun _ => ⟨_, rfl⟩⟩⟩
          simp only [Option.some.injEq] at hm
          subst hm
          exact ⟨truncate1000_ne_empty _ (string_append_ne_empty _ _ (by decide)),
            fun _ => truncate1000_length _⟩
        rcases List.mem_cons.mp he with rfl | he
        · exact ⟨fun m hm => absurd hm (by simp [noDetails]),
            ⟨fun _ => rfl, fun hf => absurd hf (by simp)⟩⟩
        · cases he
      case pos =>
        have hkey' : (!truthy (o.bind ApiConnection.githubApiKey)) = false := by
          simp [hkey]
        rw [if_neg (by simp [hkey'])]
        by_cases hok : w.ghResponse.ok = true
        case pos =>
          rw [if_pos hok]
          rcases hp : w.ghResponse.parsed with _ | j
          · simp only [hp]
            rw [updateBlogStatus_ok _ _ _ .failed _ hl1]
            refine ⟨[(.failed, ⟨none, none,
                some ("Successfully created repo but failed to parse GitHub response. Status: " ++
                  toString w.ghResponse.status), none, none, none⟩),
              (.creating_repo, noDetails)], rfl, ?_⟩
            intro e he
            rcases List.mem_cons.mp he with rfl | he
            · refine ⟨fun m hm => ?_, ⟨fun hlive => absurd hlive (by simp), fun _ => ⟨_, rfl⟩⟩⟩
              simp only [Option.some.injEq] at hm
              subst hm
              constructor
              · exact string_append_ne_empty _ _ (by decide)
              · intro hstatus
                rw [String.length_append]
                have hpr : (toString w.ghResponse.status).length ≤ 3 :=
                  repr_length_le _ hstatus
                have hfix : ("Successfully created repo but failed to parse GitHub response. Status: " : String).length ≤ 100 := by decide
                omega
            rcases List.mem_cons.mp he with rfl | he
            · exact ⟨fun m hm => absurd hm (by simp [noDetails]),
                ⟨fun _ => rfl, fun hf => absurd hf (by simp)⟩⟩
            · cases he
          · simp only [hp]
            rw [updateBlogStatus_ok _ _ _ .live _ hl1]
            refine ⟨[(.live, ⟨j.html_url, some "Deployment setup pending...",
                none, none, none, none⟩),
              (.creating_repo, noDetails)], rfl, ?_⟩
            intro e he
            rcases List.mem_cons.mp he with rfl | he
            · exact ⟨fun m hm => absurd hm (by simp), ⟨fun _ => rfl, fun hf => absurd hf (by simp)⟩⟩
            rcases List.mem_cons.mp he with rfl | he
            · exact ⟨fun m hm => absurd hm (by simp [noDetails]),
                ⟨fun _ => rfl, fun hf => absurd hf (by simp)⟩⟩
            · cases he
        case neg =>
          rw [if_neg hok]
          rw [updateBlogStatus_ok _ _ _ .failed _ hl1]
          refine ⟨[(.failed, ⟨none, none,
              some (truncate1000 ("GitHub API Error: " ++
                githubApiErrorMessage w.ghResponse.status w.ghResponse.bodyText
                  w.ghResponse.parsed)), none, none, none⟩),
            (.creating_repo, noDetails)], rfl, ?_⟩
          intro e he
          rcases List.mem_cons.mp he with rfl | he
          · refine ⟨fun m hm => ?_, ⟨fun hlive => absurd hlive (by simp), fun _ => ⟨_, rfl⟩⟩⟩
            simp only [Option.some.injEq] at hm
            subst hm
            exact ⟨truncate1000_ne_empty _ (string_append_ne_empty _ _ (by decide)),
              fun _ => truncate1000_length _⟩
          rcases List.mem_cons.mp he with rfl | he
          · exact ⟨fun m hm => absurd hm (by simp [noDetails]),
              ⟨fun _ => rfl, fun hf => absurd hf (by simp)⟩⟩
          · cases he

/-! ## Claim C5 -/

/-- C5: hosting provisioning is idempotent.  For every non-empty project
name `siteName`, account id and API token, running `deployToCloudflareAction`
on a world whose Cloudflare side has no project yet performs one lookup call
and one creation call and succeeds; running it a second time on the resulting
world performs a second lookup call but no further creation call (the lookup
now finds the project, so creation is skipped) and returns the same successful
result. -/
theorem C5_hosting_provisioning_idempotent (siteName acct token : String)
    (hs : siteName ≠ "") (ha : acct ≠ "") (ht : token ≠ "") :
    (deployToCloudflareAction (mkHostingWorld siteName acct token) "u1" "b1").2.cf.createCalls = 1 ∧
    (deployToCloudflareAction (mkHostingWorld siteName acct token) "u1" "b1").2.cf.lookupCalls = 1 ∧
    (deployToCloudflareAction (deployToCloudflareAction (mkHostingWorld siteName acct token) "u1" "b1").2
      "u1" "b1").2.cf.createCalls = 1 ∧
    (deployToCloudflareAction (deployToCloudflareAction (mkHostingWorld siteName acct token) "u1" "b1").2
      "u1" "b1").2.cf.lookupCalls = 2 ∧
    (deployToCloudflareAction (mkHostingWorld siteName acct token) "u1" "b1").1 =
      .ok ⟨true, some ("Blog deployed to Cloudflare Pages! Live at: " ++
        ("https://" ++ siteName ++ ".pages.dev")), none,
        some ("https://" ++ siteName ++ ".pages.dev")⟩ ∧
    (deployToCloudflareAction (deployToCloudflareAction (mkHostingWorld siteName acct token) "u1" "b1").2
      "u1" "b1").1 =
      .ok ⟨true, some ("Blog deployed to Cloudflare Pages! Live at: " ++
        ("https://" ++ siteName ++ ".pages.dev")), none,
        some ("https://" ++ siteName ++ ".pages.dev")⟩ := by
  refine ⟨?_, ?_, ?_, ?_, ?_, ?_⟩ <;>
  simp [deployToCloudflareAction, mkHostingWorld, updateBlogStatus, List.lookup,
    setDoc, applyDetails, mergeField, noDetails, getApiConnection, normField,
    truthy, hs, ha, ht, getBlog, getCloudflarePagesProject, getCloudflareApiHeaders,
    createCloudflarePagesProject, deployFail, deployCatch, splitSlash, stripScheme,
    strStartsWith, listIsPrefix, strDrop, splitOnChar, replaceFirst, replaceFirstAux,
    strIncludes, listContains, DEFAULT_HUGO_VERSION]

/-- Witness for `C5_hosting_provisioning_idempotent` at the concrete inputs
`("my-blog", "acct", "cftoken")`. -/
theorem C5_hosting_provisioning_idempotent_witness :
    (deployToCloudflareAction (mkHostingWorld "my-blog" "acct" "cftoken") "u1" "b1").2.cf.createCalls = 1 ∧
    (deployToCloudflareAction (mkHostingWorld "my-blog" "acct" "cftoken") "u1" "b1").2.cf.lookupCalls = 1 ∧
    (deployToCloudflareAction (deployToCloudflareAction (mkHostingWorld "my-blog" "acct" "cftoken") "u1" "b1").2
      "u1" "b1").2.cf.createCalls = 1 ∧
    (deployToCloudflareAction (deployToCloudflareAction (mkHostingWorld "my-blog" "acct" "cftoken") "u1" "b1").2
      "u1" "b1").2.cf.lookupCalls = 2 ∧
    (deployToCloudflareAction (mkHostingWorld "my-blog" "acct" "cftoken") "u1" "b1").1 =
      .ok ⟨true, some ("Blog deployed to Cloudflare Pages! Live at: " ++
        ("https://" ++ "my-blog" ++ ".pages.dev")), none,
        some ("https://" ++ "my-blog" ++ ".pages.dev")⟩ ∧
    (deployToCloudflareAction (deployToCloudflareAction (mkHostingWorld "my-blog" "acct" "cftoken") "u1" "b1").2
      "u1" "b1").1 =
      .ok ⟨true, some ("Blog deployed to Cloudflare Pages! Live at: " ++
        ("https://" ++ "my-blog" ++ ".pages.dev")), none,
        some ("https://" ++ "my-blog" ++ ".pages.dev")⟩ :=
  C5_hosting_provisioning_idempotent "my-blog" "acct" "cftoken"
    (by decide) (by decide) (by decide)

/-! ## Claim C6 -/

set_option maxRecDepth 10000 in
/-- C6 counterexample: the deployment action neither truncates stored error
diagnostics nor clears them on a successful transition.  On `erroredWorld`
(record stuck with `error = "previous failure"`) a successful deployment
leaves the stale error in place on the final `cloudflare_live` record; and on
`createFailWorld` (Cloudflare creation fails with a provider message of 1001
characters) the persisted error exceeds 1000 characters — the deployment
action has no truncation (truncation exists only in
`simulateBlogCreationProcess`). -/
theorem C6_unbounded_and_stale_error :
    ((deployToCloudflareAction erroredWorld "u1" "b1").2.store.docs.lookup "b1").map
      Blog.error = some (some "previous failure") ∧
    ((deployToCloudflareAction erroredWorld "u1" "b1").2.store.docs.lookup "b1").map
      Blog.status = some .cloudflare_live ∧
    (∃ m, ((deployToCloudflareAction createFailWorld "u1" "b1").2.store.docs.lookup
        "b1").map Blog.error = some (some m) ∧ 1000 < m.length) := by
  refine ⟨rfl, rfl, ⟨_, rfl, ?_⟩⟩
  decide

/-- C6 (amended): in `simulateBlogCreationProcess` every persisted status
write carries an error of at most 1000 characters (whenever the simulated
GitHub status code is below 1000, covering all real HTTP codes); and in
`deployToCloudflareAction` every status write whose status is the successful
`cloudflare_live` carries `error = none` in its own payload.  The original
claim fails for the deployment action: its error payloads are unbounded, and
a successful run does not clear a pre-existing stored error
(`C6_unbounded_and_stale_error`). -/
theorem C6_truncation_and_clearing_amended :
    (∀ (w : SimWorld) (blogId siteName : String),
      ∃ newEntries,
        (simulateBlogCreationProcess w blogId siteName).store.log =
          newEntries ++ w.store.log ∧
        ∀ e ∈ newEntries, ∀ m, e.2.error = some m →
          w.ghResponse.status < 1000 → m.length ≤ 1000) ∧
    (∀ (w : DeployWorld) (userId blogId : String) (b : Blog),
      userId ≠ "" → blogId ≠ "" → w.store.docs.lookup blogId = some b →
      ∃ newEntries r w2,
        deployToCloudflareAction w userId blogId = (.ok r, w2) ∧
        w2.store.log = newEntries ++ w.store.log ∧
        ∀ e ∈ newEntries, e.1 = .cloudflare_live → e.2.error = none) := by
  constructor
  · intro w blogId siteName
    obtain ⟨ne, h1, h2⟩ := simulate_spec w blogId siteName
    exact ⟨ne, h1, fun e he m hm hst => (((h2 e he).1 m hm).2 hst)⟩
  · intro w u bid b hu hb hl
    obtain ⟨ne, r, w2, h1, h2, h3, _⟩ := deployAction_spec w u bid b hu hb hl
    exact ⟨ne, r, w2, h1, h2, fun e he hlive => ((h3 e he).2 hlive).1⟩

/-- Witness for `C6_truncation_and_clearing_amended`: the simulation clause
at `simWorldFail` and the deployment clause at `readyWorld`. -/
theorem C6_truncation_and_clearing_amended_witness :
    (∃ newEntries,
      (simulateBlogCreationProcess simWorldFail "b1" "my-blog").store.log =
        newEntries ++ simWorldFail.store.log ∧
      ∀ e ∈ newEntries, ∀ m, e.2.error = some m →
        simWorldFail.ghResponse.status < 1000 → m.length ≤ 1000) ∧
    (∃ newEntries r w2,
      deployToCloudflareAction readyWorld "u1" "b1" = (.ok r, w2) ∧
      w2.store.log = newEntries ++ readyWorld.store.log ∧
      ∀ e ∈ newEntries, e.1 = .cloudflare_live → e.2.error = none) :=
  ⟨C6_truncation_and_clearing_amended.1 simWorldFail "b1" "my-blog",
   C6_truncation_and_clearing_amended.2 readyWorld "u1" "b1" readyBlog
     (by decide) (by decide) rfl⟩

/-! ## Claim C7 -/

/-- C7 counterexample: when `userId` is empty, `deployToCloudflareAction`
fails (via the line-50 guard) without persisting anything — no status write
reaches the store, so the record is left in whatever non-terminal status it
had, contradicting "every failure path ends with a persisted transition into
a terminal failed status". -/
theorem C7_guard_failure_writes_nothing :
    deployToCloudflareAction readyWorld "" "b1" =
      (.ok ⟨false, none, some "User ID or Blog ID is missing.", none⟩, readyWorld) ∧
    (deployToCloudflareAction readyWorld "" "b1").2.store.log = [] :=
  ⟨rfl, rfl⟩

/-- C7 (amended): with non-empty ids and an existing record, the deployment
action never throws (always returns `.ok`), every persisted write carries a
non-empty error whenever it carries one at all, and every failed run ends
with a persisted `cloudflare_deployment_failed` write (the newest entry)
carrying a non-empty error; the simulation likewise never throws and every
`failed` write carries a non-empty error.  The original claim fails on the
early argument guard and on a missing record, where the action reports
failure without persisting any transition
(`C7_guard_failure_writes_nothing`). -/
theorem C7_failures_persist_terminal_status :
    (∀ (w : DeployWorld) (userId blogId : String) (b : Blog),
      userId ≠ "" → blogId ≠ "" → w.store.docs.lookup blogId = some b →
      ∃ newEntries r w2,
        deployToCloudflareAction w userId blogId = (.ok r, w2) ∧
        w2.store.log = newEntries ++ w.store.log ∧
        (∀ e ∈ newEntries, ∀ m, e.2.error = some m → m ≠ "") ∧
        (r.success = false →
          ∃ d, newEntries.head? = some (.cloudflare_deployment_failed, d) ∧
            ∃ m, d.error = some m ∧ m ≠ "")) ∧
    (∀ (w : SimWorld) (blogId siteName : String),
      ∃ newEntries,
        (simulateBlogCreationProcess w blogId siteName).store.log =
          newEntries ++ w.store.log ∧
        ∀ e ∈ newEntries, e.1 = .failed → ∃ m, e.2.error = some m ∧ m ≠ "") := by
  constructor
  · intro w u bid b hu hb hl
    obtain ⟨ne, r, w2, h1, h2, h3, h4⟩ := deployAction_spec w u bid b hu hb hl
    exact ⟨ne, r, w2, h1, h2, fun e he => (h3 e he).1, h4⟩
  · intro w blogId siteName
    obtain ⟨ne, h1, h2⟩ := simulate_spec w blogId siteName
    refine ⟨ne, h1, fun e he hf => ?_⟩
    obtain ⟨m, hm⟩ := (h2 e he).2.2 hf
    exact ⟨m, hm, (((h2 e he).1 m hm).1)⟩

/-- Witness for `C7_failures_persist_terminal_status`: the deployment clause
at a ready world and the simulation clause at `simWorldFail`. -/
theorem C7_failures_persist_terminal_status_witness :
    (∃ newEntries r w2,
      deployToCloudflareAction
        ⟨⟨[("b1", readyBlog)], []⟩, [], ⟨[], none, none, 0, 0⟩⟩ "u1" "b1" =
        (.ok r, w2) ∧
      w2.store.log = newEntries ++ [] ∧
      (∀ e ∈ newEntries, ∀ m, e.2.error = some m → m ≠ "") ∧
      (r.success = false →
        ∃ d, newEntries.head? = some (.cloudflare_deployment_failed, d) ∧
          ∃ m, d.error = some m ∧ m ≠ "")) ∧
    (∃ newEntries,
      (simulateBlogCreationProcess simWorldFail "b1" "my-blog").store.log =
        newEntries ++ simWorldFail.store.log ∧
      ∀ e ∈ newEntries, e.1 = .failed → ∃ m, e.2.error = some m ∧ m ≠ "") :=
  ⟨C7_failures_persist_terminal_status.1
      ⟨⟨[("b1", readyBlog)], []⟩, [], ⟨[], none, none, 0, 0⟩⟩ "u1" "b1"
      readyBlog (by decide) (by decide) rfl,
   C7_failures_persist_terminal_status.2 simWorldFail "b1" "my-blog"⟩

/-! ## Claim C8 -/

/-- C8: the live URL is derived deterministically from the hosting project's
returned name by the fixed suffix convention.  Universally: every
`cloudflare_live` write persisted by `deployToCloudflareAction` carries
`liveUrl = "https://" ++ n ++ ".pages.dev"` where `n` is exactly the project
name it also persists (no separate deployment query exists in the model).
Concretely: deploying the `my-blog` record in `readyWorld` ends with the
record holding `liveUrl = "https://my-blog.pages.dev"` and status
`cloudflare_live`. -/
theorem C8_live_url_from_project_name :
    (∀ (w : DeployWorld) (userId blogId : String) (b : Blog),
      userId ≠ "" → blogId ≠ "" → w.store.docs.lookup blogId = some b →
      ∃ newEntries r w2,
        deployToCloudflareAction w userId blogId = (.ok r, w2) ∧
        w2.store.log = newEntries ++ w.store.log ∧
        ∀ e ∈ newEntries, e.1 = .cloudflare_live →
          ∃ n, e.2.liveUrl = some ("https://" ++ n ++ ".pages.dev") ∧
            e.2.cloudflarePagesProjectName = some n) ∧
    (((deployToCloudflareAction readyWorld "u1" "b1").2.store.docs.lookup "b1").map
        Blog.liveUrl = some (some "https://my-blog.pages.dev") ∧
     ((deployToCloudflareAction readyWorld "u1" "b1").2.store.docs.lookup "b1").map
        Blog.status = some .cloudflare_live) := by
  constructor
  · intro w u bid b hu hb hl
    obtain ⟨ne, r, w2, h1, h2, h3, _⟩ := deployAction_spec w u bid b hu hb hl
    exact ⟨ne, r, w2, h1, h2, fun e he hlive => ((h3 e he).2 hlive).2⟩
  · exact ⟨rfl, rfl⟩

/-- Witness for `C8_live_url_from_project_name`: the universal clause applied
at `readyWorld`. -/
theorem C8_live_url_from_project_name_witness :
    ∃ newEntries r w2,
      deployToCloudflareAction readyWorld "u1" "b1" = (.ok r, w2) ∧
      w2.store.log = newEntries ++ readyWorld.store.log ∧
      ∀ e ∈ newEntries, e.1 = .cloudflare_live →
        ∃ n, e.2.liveUrl = some ("https://" ++ n ++ ".pages.dev") ∧
          e.2.cloudflarePagesProjectName = some n :=
  C8_live_url_from_project_name.1 readyWorld "u1" "b1" readyBlog
    (by decide) (by decide) rfl

end HugoHost
